import Mathlib

/-!
Verification development for the Bolt Blaster Arena simulation core
(source: src/App.tsx).  JavaScript numbers are embedded as rationals,
the abstract Math functions (cos, sin, atan2, sqrt, PI) are kept
parameters collected in a record, and every call to Math.random is a
read from an oracle stream at a sequentially threaded index.  The
per-frame gameLoop body is embedded as a composition of stage
functions in the exact order of the source.
-/

namespace BoltBlaster

/-- Math.floor on a rational, returned as a rational. -/
def ratFloor (q : ℚ) : ℚ := (⌊q⌋ : ℚ)

/-- The abstract parts of the JavaScript Math object used by the game. -/
structure MathOps where
  cos : ℚ → ℚ
  sin : ℚ → ℚ
  atan2 : ℚ → ℚ → ℚ
  sqrt : ℚ → ℚ
  pi : ℚ

/-- Oracle stream modelling successive Math.random() results. -/
abbrev RandSrc := ℕ → ℚ

/-- Particle record (interface Particle). -/
structure Particle where
  x : ℚ
  y : ℚ
  vx : ℚ
  vy : ℚ
  life : ℚ
  maxLife : ℚ
  color : String
  size : ℚ
deriving DecidableEq

/-- Bolt pickup record (interface Bolt). -/
structure Bolt where
  x : ℚ
  y : ℚ
  collected : Bool
  sparkle : ℚ
deriving DecidableEq

/-- Enemy variant tag. -/
inductive EType where
  | drone
  | tank
  | boss
deriving DecidableEq

/-- Enemy record (interface Enemy). -/
structure Enemy where
  x : ℚ
  y : ℚ
  health : ℚ
  maxHealth : ℚ
  type : EType
  angle : ℚ
  shootCooldown : ℚ
deriving DecidableEq

/-- Projectile record (interface Projectile). -/
structure Projectile where
  x : ℚ
  y : ℚ
  vx : ℚ
  vy : ℚ
  damage : ℚ
  isEnemy : Bool
  color : String
  size : ℚ
deriving DecidableEq

/-- Weapon record (interface Weapon). -/
structure Weapon where
  name : String
  damage : ℚ
  fireRate : ℚ
  ammoMax : ℚ
  ammoCost : ℚ
  color : String
  projectileSize : ℚ
  spread : ℚ
  level : ℚ
  upgradeCost : ℚ
deriving DecidableEq

/-- Player sub-record of the game state. -/
structure Player where
  x : ℚ
  y : ℚ
  vx : ℚ
  vy : ℚ
  health : ℚ
  maxHealth : ℚ
  angle : ℚ
  invincible : ℚ
deriving DecidableEq

/-- The full mutable game state (interface GameState). -/
structure GameState where
  player : Player
  weapons : List Weapon
  currentWeapon : ℕ
  ammo : ℚ
  bolts : ℚ
  totalBolts : ℚ
  enemies : List Enemy
  projectiles : List Projectile
  particles : List Particle
  boltPickups : List Bolt
  wave : ℕ
  score : ℚ
  gameOver : Bool
  paused : Bool
  started : Bool
deriving DecidableEq

def CANVAS_WIDTH : ℚ := 1200
def CANVAS_HEIGHT : ℚ := 700

/-- The four fixed weapon definitions (initialWeapons). -/
def initialWeapons : List Weapon :=
  [ { name := "Blaster", damage := 10, fireRate := 200, ammoMax := 100, ammoCost := 1,
      color := "#00d4ff", projectileSize := 6, spread := 0, level := 1, upgradeCost := 50 },
    { name := "Combustor", damage := 25, fireRate := 400, ammoMax := 50, ammoCost := 2,
      color := "#ff6b35", projectileSize := 10, spread := 1/10, level := 1, upgradeCost := 100 },
    { name := "Plasma Storm", damage := 5, fireRate := 50, ammoMax := 200, ammoCost := 1,
      color := "#a855f7", projectileSize := 4, spread := 3/10, level := 1, upgradeCost := 150 },
    { name := "Devastator", damage := 50, fireRate := 800, ammoMax := 20, ammoCost := 5,
      color := "#f7c94b", projectileSize := 15, spread := 0, level := 1, upgradeCost := 200 } ]

/-- Stand-in value for a JavaScript out-of-range array access. -/
def defaultWeapon : Weapon :=
  { name := "", damage := 0, fireRate := 0, ammoMax := 0, ammoCost := 0,
    color := "", projectileSize := 0, spread := 0, level := 0, upgradeCost := 0 }

/-- The currently selected weapon, state.weapons[state.currentWeapon]. -/
def activeWeapon (s : GameState) : Weapon := s.weapons.getD s.currentWeapon defaultWeapon

/-- One particle created inside the spawnParticles loop; consumes the
four Math.random draws at indices k, k+1, k+2, k+3. -/
def mkParticle (m : MathOps) (src : RandSrc) (k : ℕ) (x y : ℚ) (color : String)
    (speed : ℚ) : Particle :=
  let angle := src k * m.pi * 2
  let velocity := src (k+1) * speed + 1
  { x := x, y := y,
    vx := m.cos angle * velocity,
    vy := m.sin angle * velocity,
    life := 30 + src (k+2) * 20,
    maxLife := 50,
    color := color,
    size := 2 + src (k+3) * 3 }

/-- spawnParticles(x, y, color, count, speed): the produced list of
particles together with the next unused oracle index. -/
def spawnParticles (m : MathOps) (src : RandSrc) (x y : ℚ) (color : String) :
    ℕ → ℚ → ℕ → List Particle × ℕ
  | 0, _, k => ([], k)
  | n+1, speed, k =>
    let p := mkParticle m src k x y color speed
    let r := spawnParticles m src x y color n speed (k+4)
    (p :: r.1, r.2)

/-- One bolt pickup created inside the spawnBolts loop; consumes the
three Math.random draws at k, k+1, k+2 (angle, dist, sparkle). -/
def mkBolt (m : MathOps) (src : RandSrc) (k : ℕ) (x y : ℚ) : Bolt :=
  let angle := src k * m.pi * 2
  let dist := src (k+1) * 30
  { x := x + m.cos angle * dist,
    y := y + m.sin angle * dist,
    collected := false,
    sparkle := src (k+2) * m.pi * 2 }

/-- spawnBolts(x, y, count). -/
def spawnBolts (m : MathOps) (src : RandSrc) (x y : ℚ) : ℕ → ℕ → List Bolt × ℕ
  | 0, k => ([], k)
  | n+1, k =>
    let b := mkBolt m src k x y
    let r := spawnBolts m src x y n (k+3)
    (b :: r.1, r.2)

/-- One non-boss enemy created inside the spawnWave loop.  The side
draw and the coordinate draw always happen; the tank draw happens only
when wave is greater than 3 because of short-circuit evaluation. -/
def mkWaveEnemy (src : RandSrc) (wave : ℕ) (k : ℕ) : Enemy × ℕ :=
  let side : ℤ := ⌊src k * 4⌋
  let r := src (k+1)
  let pos : ℚ × ℚ :=
    if side = 0 then (r * CANVAS_WIDTH, -50)
    else if side = 1 then (CANVAS_WIDTH + 50, r * CANVAS_HEIGHT)
    else if side = 2 then (r * CANVAS_WIDTH, CANVAS_HEIGHT + 50)
    else (-50, r * CANVAS_HEIGHT)
  let tk : Bool × ℕ := if 3 < wave then (decide (src (k+2) < 1/5), k+3) else (false, k+2)
  let healthMult : ℚ := if tk.1 then 3 else 1
  ({ x := pos.1, y := pos.2,
     health := (30 + (wave : ℚ) * 10) * healthMult,
     maxHealth := (30 + (wave : ℚ) * 10) * healthMult,
     type := if tk.1 then EType.tank else EType.drone,
     angle := 0,
     shootCooldown := src tk.2 * 60 }, tk.2 + 1)

/-- The spawnWave for-loop over the enemy count. -/
def spawnWaveAux (src : RandSrc) (wave : ℕ) : ℕ → ℕ → List Enemy × ℕ
  | 0, k => ([], k)
  | n+1, k =>
    let e := mkWaveEnemy src wave k
    let r := spawnWaveAux src wave n e.2
    (e.1 :: r.1, r.2)

/-- The boss record pushed on every fifth wave. -/
def bossEnemy (wave : ℕ) : Enemy :=
  { x := CANVAS_WIDTH / 2, y := -100,
    health := 200 + (wave : ℚ) * 50,
    maxHealth := 200 + (wave : ℚ) * 50,
    type := EType.boss,
    angle := 0,
    shootCooldown := 0 }

/-- spawnWave(wave): the list of enemies pushed and the next oracle index. -/
def spawnWave (src : RandSrc) (wave : ℕ) (k : ℕ) : List Enemy × ℕ :=
  let r := spawnWaveAux src wave (3 + wave * 2) k
  if wave % 5 = 0 then (r.1 ++ [bossEnemy wave], r.2) else r

/-- The launch angle of a successful fire: the player facing angle
plus the random spread offset (Math.random() minus one half, times the
weapon spread). -/
def shotAngle (src : RandSrc) (s : GameState) (k : ℕ) : ℚ :=
  s.player.angle + (src k - 1/2) * (activeWeapon s).spread

/-- The projectile pushed by a successful fire. -/
def shotProj (m : MathOps) (src : RandSrc) (s : GameState) (k : ℕ) : Projectile :=
  { x := s.player.x + m.cos (shotAngle src s k) * 30,
    y := s.player.y + m.sin (shotAngle src s k) * 30,
    vx := m.cos (shotAngle src s k) * 15,
    vy := m.sin (shotAngle src s k) * 15,
    damage := (activeWeapon s).damage * (activeWeapon s).level,
    isEnemy := false,
    color := (activeWeapon s).color,
    size := (activeWeapon s).projectileSize }

/-- shoot(): gated on the shared last-shot timestamp and on ammo;
on success deducts ammo, records the timestamp, and pushes one
player-owned projectile plus five muzzle particles.  Returns the new
state, the new last-shot timestamp, and the next oracle index. -/
def shoot (m : MathOps) (src : RandSrc) (now : ℚ) (s : GameState) (lastShot : ℚ)
    (k : ℕ) : GameState × ℚ × ℕ :=
  let weapon := activeWeapon s
  if now - lastShot < weapon.fireRate then (s, lastShot, k)
  else if s.ammo < weapon.ammoCost then (s, lastShot, k)
  else
    let ps := spawnParticles m src (shotProj m src s k).x (shotProj m src s k).y
      weapon.color 5 2 (k+1)
    ({ s with ammo := s.ammo - weapon.ammoCost,
              projectiles := s.projectiles ++ [shotProj m src s k],
              particles := s.particles ++ ps.1 },
     now, ps.2)

/-- The in-place field updates applied to a weapon by a successful
upgrade: level up, and floor-scaled cost, damage, and capacity. -/
def upgradedWeapon (w : Weapon) : Weapon :=
  { w with level := w.level + 1,
           upgradeCost := ratFloor (w.upgradeCost * (9/5)),
           damage := ratFloor (w.damage * (13/10)),
           ammoMax := ratFloor (w.ammoMax * (6/5)) }

/-- upgradeWeapon(index). -/
def upgradeWeapon (s : GameState) (index : ℕ) : GameState :=
  let weapon := s.weapons.getD index defaultWeapon
  if weapon.upgradeCost ≤ s.bolts ∧ weapon.level < 5 then
    { s with bolts := s.bolts - weapon.upgradeCost,
             weapons := s.weapons.set index (upgradedWeapon weapon) }
  else s

/-- Weapon selection (number-key handler and weapon panel click):
sets the index and truncates ammo to the new capacity. -/
def switchWeapon (s : GameState) (index : ℕ) : GameState :=
  { s with currentWeapon := index,
           ammo := min s.ammo (s.weapons.getD index defaultWeapon).ammoMax }

/-- Enemy body radius by variant, as used in the collision pass. -/
def enemyRadius : EType → ℚ
  | EType.boss => 50
  | EType.tank => 35
  | EType.drone => 25

/-- Score awarded on an enemy kill, by variant. -/
def scoreValue : EType → ℚ
  | EType.boss => 500
  | EType.tank => 100
  | EType.drone => 50

/-- Number of bolt pickups dropped on an enemy kill, by variant. -/
def boltDrop : EType → ℕ
  | EType.boss => 20
  | EType.tank => 8
  | EType.drone => 3

/-- Per-variant chase speed. -/
def moveSpeed : EType → ℚ
  | EType.tank => 1
  | EType.boss => 3/2
  | EType.drone => 2

/-- Per-variant fire-cooldown reset value. -/
def enemyFireRate : EType → ℚ
  | EType.boss => 30
  | EType.tank => 90
  | EType.drone => 120

/-- The per-enemy body of the enemy forEach: chase the player while
beyond the stand-off distance, face the player, decrement the
cooldown, and fire (a five-shot fan for the boss, one shot otherwise)
when it reaches zero.  Returns the updated enemy and the projectiles
it pushed. -/
def updateEnemy (m : MathOps) (player : Player) (e : Enemy) : Enemy × List Projectile :=
  let dx := player.x - e.x
  let dy := player.y - e.y
  let dist := m.sqrt (dx * dx + dy * dy)
  let angle := m.atan2 dy dx
  let pos : ℚ × ℚ :=
    if 150 < dist then (e.x + dx / dist * moveSpeed e.type, e.y + dy / dist * moveSpeed e.type)
    else (e.x, e.y)
  let cd := e.shootCooldown - 1
  if cd ≤ 0 then
    let projs : List Projectile :=
      if e.type = EType.boss then
        (List.range 5).map (fun i =>
          let a := angle + ((i : ℚ) - 2) * (3/10)
          { x := pos.1, y := pos.2,
            vx := m.cos a * 6, vy := m.sin a * 6,
            damage := 15, isEnemy := true, color := "#ff3366", size := 8 })
      else
        [ { x := pos.1, y := pos.2,
            vx := m.cos angle * 5, vy := m.sin angle * 5,
            damage := if e.type = EType.tank then 15 else 10,
            isEnemy := true, color := "#ff3366", size := 6 } ]
    ({ e with x := pos.1, y := pos.2, angle := angle, shootCooldown := enemyFireRate e.type },
     projs)
  else
    ({ e with x := pos.1, y := pos.2, angle := angle, shootCooldown := cd }, [])

/-- The enemy forEach over the whole collection; new projectiles are
appended in enemy order. -/
def updateEnemies (m : MathOps) (player : Player) : List Enemy → List Enemy × List Projectile
  | [] => ([], [])
  | e :: es =>
    let r := updateEnemy m player e
    let rs := updateEnemies m player es
    (r.1 :: rs.1, r.2 ++ rs.2)

/-- Circular overlap test between a player projectile and an enemy. -/
def overlapPE (p : Projectile) (e : Enemy) : Bool :=
  decide ((p.x - e.x) * (p.x - e.x) + (p.y - e.y) * (p.y - e.y) <
    (enemyRadius e.type + p.size) * (enemyRadius e.type + p.size))

/-- The reverse-index for-loop of the collision pass for one player
projectile: the enemy at the highest overlapping index takes the hit.
Returns none when no enemy overlaps; otherwise the updated enemy list
(hit enemy damaged in place, or removed when its health drops to or
below zero) together with the killed enemy record when there is one. -/
def enemyHit (p : Projectile) : List Enemy → Option (List Enemy × Option Enemy)
  | [] => none
  | e :: es =>
    match enemyHit p es with
    | some r => some (e :: r.1, r.2)
    | none =>
      if overlapPE p e then
        let damaged := { e with health := e.health - p.damage }
        if damaged.health ≤ 0 then some (es, some damaged)
        else some (damaged :: es, none)
      else none

/-- Accumulator for the collision-pass filter over the projectiles. -/
structure CollCtx where
  enemies : List Enemy
  player : Player
  score : ℚ
  boltPickups : List Bolt
  particles : List Particle
  gameOver : Bool
  kept : List Projectile
  k : ℕ
deriving DecidableEq

/-- The body of the collision-pass filter callback for one projectile,
in source order: a player projectile scans enemies from the highest
index and is consumed by its first hit, awarding score and dropping
bolt pickups when the hit kills; an enemy projectile tests the player
circle and is ignored entirely while the invincibility timer is
positive, otherwise it subtracts its damage, starts the 60-tick
invincibility window, and sets game-over when health drops to or
below zero. -/
def collideOne (m : MathOps) (src : RandSrc) (c : CollCtx) (p : Projectile) : CollCtx :=
  if p.isEnemy then
    let dx := p.x - c.player.x
    let dy := p.y - c.player.y
    if decide (dx * dx + dy * dy < 900) && decide (c.player.invincible ≤ 0) then
      let h := c.player.health - p.damage
      let ps := spawnParticles m src c.player.x c.player.y "#ff3366" 15 3 c.k
      { c with player := { c.player with health := h, invincible := 60 },
               particles := c.particles ++ ps.1,
               gameOver := if h ≤ 0 then true else c.gameOver,
               k := ps.2 }
    else { c with kept := c.kept ++ [p] }
  else
    match enemyHit p c.enemies with
    | none => { c with kept := c.kept ++ [p] }
    | some r =>
      let ps1 := spawnParticles m src p.x p.y p.color 8 3 c.k
      match r.2 with
      | none => { c with enemies := r.1, particles := c.particles ++ ps1.1, k := ps1.2 }
      | some e =>
        let bs := spawnBolts m src e.x e.y (boltDrop e.type) ps1.2
        let ps2 := spawnParticles m src e.x e.y "#ff6b35" 30 5 bs.2
        { c with enemies := r.1,
                 boltPickups := c.boltPickups ++ bs.1,
                 particles := c.particles ++ ps1.1 ++ ps2.1,
                 score := c.score + scoreValue e.type,
                 k := ps2.2 }

/-- Accumulator for the bolt-collection forEach. -/
structure BoltCtx where
  bolts : ℚ
  totalBolts : ℚ
  particles : List Particle
  out : List Bolt
  k : ℕ
deriving DecidableEq

/-- The bolt-collection forEach body for one pickup: collect it when
uncollected and within the pickup radius, then advance the sparkle
phase either way. -/
def collectOne (m : MathOps) (src : RandSrc) (player : Player) (c : BoltCtx) (b : Bolt) :
    BoltCtx :=
  if !b.collected &&
      decide ((player.x - b.x) * (player.x - b.x) + (player.y - b.y) * (player.y - b.y) < 1600) then
    let ps := spawnParticles m src b.x b.y "#f7c94b" 5 3 c.k
    { bolts := c.bolts + 1,
      totalBolts := c.totalBolts + 1,
      particles := c.particles ++ ps.1,
      out := c.out ++ [{ b with collected := true, sparkle := b.sparkle + 1/10 }],
      k := ps.2 }
  else { c with out := c.out ++ [{ b with sparkle := b.sparkle + 1/10 }] }

/-- One step of the particle update pass. -/
def stepParticle (p : Particle) : Particle :=
  { p with x := p.x + p.vx, y := p.y + p.vy,
           vx := p.vx * (19/20), vy := p.vy * (19/20),
           life := p.life - 1 }

/-- Off-screen cull test for projectiles (playfield plus margin). -/
def projInBounds (p : Projectile) : Bool :=
  decide (-50 < p.x ∧ p.x < CANVAS_WIDTH + 50 ∧ -50 < p.y ∧ p.y < CANVAS_HEIGHT + 50)

/-- Normalized per-tick input sampled by the loop. -/
structure TickInput where
  up : Bool
  down : Bool
  left : Bool
  right : Bool
  mouseX : ℚ
  mouseY : ℚ
  shooting : Bool
  now : ℚ
deriving DecidableEq

/-- The state threaded through a tick: the game state, the shared
last-shot timestamp (lastShotRef), and the next oracle index. -/
structure TickState where
  s : GameState
  ls : ℚ
  k : ℕ
deriving DecidableEq

/-- Tick stage: player movement with clamping, and aim angle. -/
def moveAngleStage (m : MathOps) (inp : TickInput) (t : TickState) : TickState :=
  let vy := if inp.up then (-5 : ℚ) else if inp.down then 5 else t.s.player.vy * (4/5)
  let vx := if inp.left then (-5 : ℚ) else if inp.right then 5 else t.s.player.vx * (4/5)
  let px := max 30 (min (CANVAS_WIDTH - 30) (t.s.player.x + vx))
  let py := max 30 (min (CANVAS_HEIGHT - 30) (t.s.player.y + vy))
  let ang := m.atan2 (inp.mouseY - py) (inp.mouseX - px)
  { t with s := { t.s with player :=
      { t.s.player with x := px, y := py, vx := vx, vy := vy, angle := ang } } }

/-- Tick stage: fire the active weapon while the fire button is held. -/
def shootStage (m : MathOps) (src : RandSrc) (inp : TickInput) (t : TickState) : TickState :=
  if inp.shooting then
    let r := shoot m src inp.now t.s t.ls t.k
    { s := r.1, ls := r.2.1, k := r.2.2 }
  else t

/-- Tick stage: invincibility countdown. -/
def invStage (t : TickState) : TickState :=
  { t with s := { t.s with player := { t.s.player with invincible :=
      if 0 < t.s.player.invincible then t.s.player.invincible - 1
      else t.s.player.invincible } } }

/-- Tick stage: projectile motion and off-screen cull. -/
def projMotionStage (t : TickState) : TickState :=
  let moved := t.s.projectiles.map (fun p => { p with x := p.x + p.vx, y := p.y + p.vy })
  { t with s := { t.s with projectiles := moved.filter projInBounds } }

/-- Tick stage: enemy chase, aiming, and fire control. -/
def enemyStage (m : MathOps) (t : TickState) : TickState :=
  let r := updateEnemies m t.s.player t.s.enemies
  { t with s := { t.s with enemies := r.1, projectiles := t.s.projectiles ++ r.2 } }

/-- Tick stage: the collision-pass filter over all projectiles. -/
def collideStage (m : MathOps) (src : RandSrc) (t : TickState) : TickState :=
  let c0 : CollCtx :=
    { enemies := t.s.enemies, player := t.s.player, score := t.s.score,
      boltPickups := t.s.boltPickups, particles := t.s.particles,
      gameOver := t.s.gameOver, kept := [], k := t.k }
  let c := t.s.projectiles.foldl (collideOne m src) c0
  { t with s := { t.s with enemies := c.enemies, player := c.player, score := c.score,
                           boltPickups := c.boltPickups, particles := c.particles,
                           gameOver := c.gameOver, projectiles := c.kept },
           k := c.k }

/-- Tick stage: bolt collection and the purge of collected pickups. -/
def boltStage (m : MathOps) (src : RandSrc) (t : TickState) : TickState :=
  let c0 : BoltCtx :=
    { bolts := t.s.bolts, totalBolts := t.s.totalBolts, particles := t.s.particles,
      out := [], k := t.k }
  let c := t.s.boltPickups.foldl (collectOne m src t.s.player) c0
  { t with s := { t.s with bolts := c.bolts, totalBolts := c.totalBolts,
                           particles := c.particles,
                           boltPickups := c.out.filter (fun b => !b.collected) },
           k := c.k }

/-- Tick stage: passive ammo regeneration toward the active capacity. -/
def ammoStage (t : TickState) : TickState :=
  let a := if t.s.ammo < (activeWeapon t.s).ammoMax then
    min (activeWeapon t.s).ammoMax (t.s.ammo + 1/10) else t.s.ammo
  { t with s := { t.s with ammo := a } }

/-- Tick stage: wave progression, triggered exactly when the enemy
collection is empty. -/
def waveStage (src : RandSrc) (t : TickState) : TickState :=
  if t.s.enemies.isEmpty then
    let w := t.s.wave + 1
    let r := spawnWave src w t.k
    { t with s := { t.s with wave := w, enemies := t.s.enemies ++ r.1 }, k := r.2 }
  else t

/-- Tick stage: particle motion, drag, and lifetime cull. -/
def particleStage (t : TickState) : TickState :=
  { t with s := { t.s with particles :=
      (t.s.particles.map stepParticle).filter (fun p => decide (0 < p.life)) } }

/-- Everything of the simulation tick up to (and excluding) the wave
progression check. -/
def preWave (m : MathOps) (src : RandSrc) (inp : TickInput) (t : TickState) : TickState :=
  ammoStage (boltStage m src (collideStage m src (enemyStage m (projMotionStage
    (invStage (shootStage m src inp (moveAngleStage m inp t)))))))

/-- One full pass of the gameLoop simulation body, gated exactly as in
the source on started, paused, and gameOver. -/
def tick (m : MathOps) (src : RandSrc) (inp : TickInput) (t : TickState) : TickState :=
  if !t.s.started || t.s.paused || t.s.gameOver then t
  else particleStage (waveStage src (preWave m src inp t))

/-- Iterated ticks under a per-tick environment of oracle and input. -/
def ticks (m : MathOps) (env : ℕ → RandSrc × TickInput) : ℕ → TickState → TickState
  | 0, t => t
  | n+1, t => ticks m env n (tick m (env n).1 (env n).2 t)

/-- The state invariant of the amended C1: ammo within the capacity of
the active weapon, health bounded above by maxHealth, negative health
only ever in the game-over state, and the well-formedness of the
projectile damages and the weapon table that the tick relies on. -/
def WF (s : GameState) : Prop :=
  0 ≤ s.ammo ∧
  s.ammo ≤ (activeWeapon s).ammoMax ∧
  s.player.health ≤ s.player.maxHealth ∧
  (s.player.health < 0 → s.gameOver = true) ∧
  (∀ p ∈ s.projectiles, 0 ≤ p.damage) ∧
  (∀ w ∈ s.weapons, 0 ≤ w.damage ∧ 0 ≤ w.ammoCost ∧ 0 ≤ w.level)

/-! Concrete instances used for counterexamples and witnesses. -/

/-- A concrete instantiation of the abstract Math functions. -/
def cMath : MathOps :=
  { cos := fun _ => 1, sin := fun _ => 0, atan2 := fun _ _ => 0, sqrt := fun _ => 0, pi := 3 }

/-- A concrete oracle: every Math.random draw returns one half. -/
def cSrc : RandSrc := fun _ => 1/2

/-- Idle input: no keys, no fire, mouse at the playfield center. -/
def idleInput : TickInput :=
  { up := false, down := false, left := false, right := false,
    mouseX := 600, mouseY := 350, shooting := false, now := 0 }

/-- The initial player record. -/
def basePlayer : Player :=
  { x := 600, y := 350, vx := 0, vy := 0, health := 100, maxHealth := 100,
    angle := 0, invincible := 0 }

/-- A started run with the initial loadout and no entities. -/
def startState : GameState :=
  { player := basePlayer, weapons := initialWeapons, currentWeapon := 0,
    ammo := 100, bolts := 0, totalBolts := 0, enemies := [], projectiles := [],
    particles := [], boltPickups := [], wave := 1, score := 0,
    gameOver := false, paused := false, started := true }

/-- A drone far from the player with a cooldown that keeps it quiet. -/
def farEnemy : Enemy :=
  { x := 100, y := 100, health := 40, maxHealth := 40, type := EType.drone,
    angle := 0, shootCooldown := 50 }

/-- A stationary enemy projectile resting on the player position. -/
def enemyShot : Projectile :=
  { x := 600, y := 350, vx := 0, vy := 0, damage := 10, isEnemy := true,
    color := "#ff3366", size := 6 }

/-- The player close to death. -/
def lowPlayer : Player := { basePlayer with health := 5 }

/-- A started state at 5 health with an enemy projectile on the player. -/
def c1State : GameState :=
  { startState with
    player := lowPlayer,
    enemies := [farEnemy],
    projectiles := [enemyShot] }

/-- A run holding exactly 50 bolts, the upgrade cost of weapon 0. -/
def c4s : GameState := { startState with bolts := 50 }

/-- Weapon 0 raised to the level cap. -/
def c4w5 : Weapon := { (startState.weapons.getD 0 defaultWeapon) with level := 5 }

/-- A run with weapon 0 at the level cap and ample currency. -/
def c4s5 : GameState :=
  { startState with bolts := 100000, weapons := startState.weapons.set 0 c4w5 }

/-- First fire in the C2 scenario: weapon 0 at time 1000. -/
def fireA : GameState × ℚ × ℕ := shoot cMath cSrc 1000 startState 0 0

/-- The C2 scenario state after switching to weapon 1. -/
def afterSwitch : GameState := switchWeapon fireA.1 1

/-- Second fire attempt in the C2 scenario: weapon 1 at time 1001. -/
def fireB : GameState × ℚ × ℕ := shoot cMath cSrc 1001 afterSwitch fireA.2.1 fireA.2.2

/-- A drone sitting on the player, one hit from death. -/
def nearDrone : Enemy :=
  { x := 200, y := 200, health := 10, maxHealth := 40, type := EType.drone,
    angle := 0, shootCooldown := 50 }

/-- An enemy projectile on the player strong enough to kill. -/
def killerShot : Projectile :=
  { x := 600, y := 350, vx := 0, vy := 0, damage := 15, isEnemy := true,
    color := "#ff3366", size := 6 }

/-- A player projectile resting on the drone. -/
def playerShot : Projectile :=
  { x := 200, y := 200, vx := 0, vy := 0, damage := 10, isEnemy := false,
    color := "#00d4ff", size := 6 }

/-- An uncollected pickup lying on the player. -/
def groundBolt : Bolt := { x := 600, y := 350, collected := false, sparkle := 0 }

/-- The player at 10 health. -/
def frailPlayer : Player := { basePlayer with health := 10 }

/-- The C10 scenario: a killing enemy projectile first in the pass, a
lethal player projectile second, a pickup in range, regenerating ammo,
and a last enemy about to die. -/
def c10State : GameState :=
  { startState with
    player := frailPlayer,
    ammo := 50,
    enemies := [nearDrone],
    projectiles := [killerShot, playerShot],
    boltPickups := [groundBolt] }

/-- A game-over state. -/
def overState : GameState := { c1State with gameOver := true }

/-- A paused state. -/
def pausedState : GameState := { c1State with paused := true }

/-- The player during the invincibility window. -/
def shieldedPlayer : Player := { basePlayer with invincible := 60 }

/-- A collision-pass accumulator with the invincibility window open. -/
def invCtx : CollCtx :=
  { enemies := [], player := shieldedPlayer, score := 0, boltPickups := [],
    particles := [], gameOver := false, kept := [], k := 0 }

/-- A collision-pass accumulator with a vulnerable player. -/
def hitCtx : CollCtx := { invCtx with player := basePlayer }

/-- A started state whose invincibility window just opened. -/
def shieldedState : GameState := { c1State with player := shieldedPlayer }

/-- A collision-pass accumulator holding one nearly dead drone. -/
def killCtx : CollCtx := { hitCtx with enemies := [nearDrone] }

/-- The far drone after one cooldown step. -/
def chilledFar : Enemy := { farEnemy with shootCooldown := 49 }

/-- The C1 state as it reaches the collision stage. -/
def c1Mid : GameState := { c1State with enemies := [chilledFar] }

/-- The near drone after one cooldown step. -/
def chilledDrone : Enemy := { nearDrone with shootCooldown := 49 }

/-- The C10 state as it reaches the collision stage. -/
def c10Mid : GameState := { c10State with enemies := [chilledDrone] }

/-- The pickup dropped by the dying drone under the constant oracle. -/
def droppedBolt : Bolt := { x := 215, y := 200, collected := false, sparkle := 3 }

/-- The player after the killing hit of the C10 run. -/
def deadPlayer : Player := { frailPlayer with health := -5, invincible := 60 }

/-! Claim C4: the upgrade operation. -/

/-- Claim C4: for every weapon index, the upgrade succeeds exactly when
the currency balance reaches the upgrade cost and the level is below 5;
on success it deducts the cost, increments the level, and floors the
scaled damage (times 13/10), ammo capacity (times 6/5), and next cost
(times 9/5); otherwise the state is unchanged. -/
theorem c4_upgrade (s : GameState) (i : ℕ) (hi : i < s.weapons.length) :
    (∀ w : Weapon,
      (upgradedWeapon w).level = w.level + 1 ∧
      (upgradedWeapon w).upgradeCost = ratFloor (w.upgradeCost * (9/5)) ∧
      (upgradedWeapon w).damage = ratFloor (w.damage * (13/10)) ∧
      (upgradedWeapon w).ammoMax = ratFloor (w.ammoMax * (6/5))) ∧
    ((s.weapons.get ⟨i, hi⟩).upgradeCost ≤ s.bolts ∧ (s.weapons.get ⟨i, hi⟩).level < 5 →
      upgradeWeapon s i = { s with
        bolts := s.bolts - (s.weapons.get ⟨i, hi⟩).upgradeCost,
        weapons := s.weapons.set i (upgradedWeapon (s.weapons.get ⟨i, hi⟩)) }) ∧
    (s.bolts < (s.weapons.get ⟨i, hi⟩).upgradeCost ∨ ¬(s.weapons.get ⟨i, hi⟩).level < 5 →
      upgradeWeapon s i = s) := by
  have hgd : s.weapons.getD i defaultWeapon = s.weapons.get ⟨i, hi⟩ :=
    List.getD_eq_get _ _ hi
  refine ⟨fun w => ⟨rfl, rfl, rfl, rfl⟩, ?_, ?_⟩
  · intro h
    unfold upgradeWeapon
    rw [hgd, if_pos h]
  · intro h
    unfold upgradeWeapon
    rw [hgd, if_neg]
    rcases h with h | h
    · exact fun hc => absurd hc.1 (not_le.mpr h)
    · exact fun hc => absurd hc.2 h

/-- Witness for C4: at currency exactly equal to the cost the upgrade
succeeds and drains the balance; at the level cap it is a no-op. -/
theorem c4_upgrade_witness :
    (upgradeWeapon c4s 0).bolts = 0 ∧ upgradeWeapon c4s5 0 = c4s5 := by
  constructor
  · have h := (c4_upgrade c4s 0 (by decide)).2.1
      (by norm_num [c4s, startState, initialWeapons])
    rw [h]
    norm_num [c4s, startState, initialWeapons]
  · exact (c4_upgrade c4s5 0 (by decide)).2.2
      (Or.inr (by norm_num [c4s5, c4w5, startState, initialWeapons, defaultWeapon]))

/-! Basic facts about the fire action. -/

/-- A failed fire attempt changes nothing. -/
theorem shoot_fail (m : MathOps) (src : RandSrc) (now : ℚ) (s : GameState) (ls : ℚ) (k : ℕ)
    (h : now - ls < (activeWeapon s).fireRate ∨ s.ammo < (activeWeapon s).ammoCost) :
    shoot m src now s ls k = (s, ls, k) := by
  unfold shoot
  rcases h with h | h
  · rw [if_pos h]
  · by_cases h1 : now - ls < (activeWeapon s).fireRate
    · rw [if_pos h1]
    · rw [if_neg h1, if_pos h]

/-- A successful fire deducts the ammo cost, records the timestamp,
and pushes exactly the one shot projectile and its muzzle particles. -/
theorem shoot_success (m : MathOps) (src : RandSrc) (now : ℚ) (s : GameState) (ls : ℚ) (k : ℕ)
    (h1 : (activeWeapon s).fireRate ≤ now - ls)
    (h2 : (activeWeapon s).ammoCost ≤ s.ammo) :
    shoot m src now s ls k =
      ({ s with
         ammo := s.ammo - (activeWeapon s).ammoCost,
         projectiles := s.projectiles ++ [shotProj m src s k],
         particles := s.particles ++
           (spawnParticles m src (shotProj m src s k).x (shotProj m src s k).y
             (activeWeapon s).color 5 2 (k+1)).1 },
       now,
       (spawnParticles m src (shotProj m src s k).x (shotProj m src s k).y
         (activeWeapon s).color 5 2 (k+1)).2) := by
  unfold shoot
  rw [if_neg (not_lt.mpr h1), if_neg (not_lt.mpr h2)]

/-- The fire action never touches the player, the weapon roster, the
selection index, or the flags. -/
theorem shoot_frame (m : MathOps) (src : RandSrc) (now : ℚ) (s : GameState) (ls : ℚ) (k : ℕ) :
    (shoot m src now s ls k).1.player = s.player ∧
    (shoot m src now s ls k).1.weapons = s.weapons ∧
    (shoot m src now s ls k).1.currentWeapon = s.currentWeapon ∧
    (shoot m src now s ls k).1.enemies = s.enemies ∧
    (shoot m src now s ls k).1.boltPickups = s.boltPickups ∧
    (shoot m src now s ls k).1.bolts = s.bolts ∧
    (shoot m src now s ls k).1.totalBolts = s.totalBolts ∧
    (shoot m src now s ls k).1.wave = s.wave ∧
    (shoot m src now s ls k).1.score = s.score ∧
    (shoot m src now s ls k).1.gameOver = s.gameOver ∧
    (shoot m src now s ls k).1.paused = s.paused ∧
    (shoot m src now s ls k).1.started = s.started := by
  by_cases h1 : now - ls < (activeWeapon s).fireRate
  · rw [shoot_fail m src now s ls k (Or.inl h1)]
    exact ⟨rfl, rfl, rfl, rfl, rfl, rfl, rfl, rfl, rfl, rfl, rfl, rfl⟩
  · by_cases h2 : s.ammo < (activeWeapon s).ammoCost
    · rw [shoot_fail m src now s ls k (Or.inr h2)]
      exact ⟨rfl, rfl, rfl, rfl, rfl, rfl, rfl, rfl, rfl, rfl, rfl, rfl⟩
    · rw [shoot_success m src now s ls k (not_lt.mp h1) (not_lt.mp h2)]
      exact ⟨rfl, rfl, rfl, rfl, rfl, rfl, rfl, rfl, rfl, rfl, rfl, rfl⟩

/-- The active weapon is untouched by a fire action. -/
theorem shoot_activeWeapon (m : MathOps) (src : RandSrc) (now : ℚ) (s : GameState)
    (ls : ℚ) (k : ℕ) : activeWeapon (shoot m src now s ls k).1 = activeWeapon s := by
  unfold activeWeapon
  rw [(shoot_frame m src now s ls k).2.1, (shoot_frame m src now s ls k).2.2.1]

/-! Claim C3: fire attempt semantics. -/

/-- Claim C3: when both the cooldown condition and the ammo condition
hold, a fire attempt deducts exactly the ammo cost and appends exactly
one player-owned projectile whose damage is the weapon damage times
its level, whose velocity is 15 along the facing angle plus a
uniform-random offset bounded by half the spread; when either
condition fails nothing changes, and two attempts within less than
the fire interval emit exactly one projectile. -/
theorem c3_fire (m : MathOps) (src : RandSrc) (now : ℚ) (s : GameState) (ls : ℚ) (k : ℕ) :
    ((activeWeapon s).fireRate ≤ now - ls → (activeWeapon s).ammoCost ≤ s.ammo →
      (shoot m src now s ls k).1.ammo = s.ammo - (activeWeapon s).ammoCost ∧
      (shoot m src now s ls k).2.1 = now ∧
      (shoot m src now s ls k).1.projectiles = s.projectiles ++ [shotProj m src s k] ∧
      (shotProj m src s k).damage = (activeWeapon s).damage * (activeWeapon s).level ∧
      (shotProj m src s k).isEnemy = false ∧
      (shotProj m src s k).vx = m.cos (shotAngle src s k) * 15 ∧
      (shotProj m src s k).vy = m.sin (shotAngle src s k) * 15 ∧
      shotAngle src s k = s.player.angle + (src k - 1/2) * (activeWeapon s).spread ∧
      (0 ≤ src k → src k ≤ 1 → 0 ≤ (activeWeapon s).spread →
        |(src k - 1/2) * (activeWeapon s).spread| ≤ (activeWeapon s).spread / 2)) ∧
    (now - ls < (activeWeapon s).fireRate ∨ s.ammo < (activeWeapon s).ammoCost →
      shoot m src now s ls k = (s, ls, k)) ∧
    (∀ (src2 : RandSrc) (now2 : ℚ),
      (activeWeapon s).fireRate ≤ now - ls → (activeWeapon s).ammoCost ≤ s.ammo →
      now2 - now < (activeWeapon s).fireRate →
      (shoot m src2 now2 (shoot m src now s ls k).1 (shoot m src now s ls k).2.1
        (shoot m src now s ls k).2.2).1.projectiles.length = s.projectiles.length + 1) := by
  refine ⟨?_, shoot_fail m src now s ls k, ?_⟩
  · intro h1 h2
    rw [shoot_success m src now s ls k h1 h2]
    refine ⟨rfl, rfl, rfl, rfl, rfl, rfl, rfl, rfl, ?_⟩
    intro hr0 hr1 hs
    rw [abs_mul, abs_of_nonneg hs]
    have hb : |src k - 1/2| ≤ 1/2 := abs_le.mpr ⟨by linarith, by linarith⟩
    calc |src k - 1/2| * (activeWeapon s).spread
        ≤ (1/2) * (activeWeapon s).spread := mul_le_mul_of_nonneg_right hb hs
      _ = (activeWeapon s).spread / 2 := by ring
  · intro src2 now2 h1 h2 hlt
    have hfst := shoot_success m src now s ls k h1 h2
    have hls : (shoot m src now s ls k).2.1 = now := by rw [hfst]
    have hproj : (shoot m src now s ls k).1.projectiles =
        s.projectiles ++ [shotProj m src s k] := by rw [hfst]
    have hsnd := shoot_fail m src2 now2 (shoot m src now s ls k).1
      (shoot m src now s ls k).2.1 (shoot m src now s ls k).2.2
      (Or.inl (by rw [hls, shoot_activeWeapon]; exact hlt))
    rw [hsnd, hproj, List.length_append, List.length_singleton]

/-- Witness for C3: from the fresh loadout at time 1000 a fire
succeeds, spends one ammo, emits one projectile of damage 10 times
level 1, and a second attempt at time 1001 adds nothing. -/
theorem c3_fire_witness :
    (shoot cMath cSrc 1000 startState 0 0).1.ammo =
      startState.ammo - (activeWeapon startState).ammoCost ∧
    (shoot cMath cSrc 1000 startState 0 0).1.projectiles =
      startState.projectiles ++ [shotProj cMath cSrc startState 0] ∧
    (shotProj cMath cSrc startState 0).damage =
      (activeWeapon startState).damage * (activeWeapon startState).level ∧
    |(cSrc 0 - 1/2) * (activeWeapon startState).spread| ≤ (activeWeapon startState).spread / 2 ∧
    (shoot cMath cSrc 1001 (shoot cMath cSrc 1000 startState 0 0).1
      (shoot cMath cSrc 1000 startState 0 0).2.1
      (shoot cMath cSrc 1000 startState 0 0).2.2).1.projectiles.length =
      startState.projectiles.length + 1 := by
  have ha : (activeWeapon startState).fireRate ≤ (1000 : ℚ) - 0 := by
    norm_num [activeWeapon, startState, initialWeapons]
  have hb : (activeWeapon startState).ammoCost ≤ startState.ammo := by
    norm_num [activeWeapon, startState, initialWeapons]
  obtain ⟨hs, _, htwo⟩ := c3_fire cMath cSrc 1000 startState 0 0
  obtain ⟨e1, _, e3, e4, _, _, _, e8, e9⟩ := hs ha hb
  refine ⟨e1, e3, e4, ?_, ?_⟩
  · exact e9 (by norm_num [cSrc]) (by norm_num [cSrc])
      (by norm_num [activeWeapon, startState, initialWeapons])
  · exact htwo cSrc 1001 ha hb (by norm_num [activeWeapon, startState, initialWeapons])

/-! Claim C2: the cooldown is shared, not per weapon. -/

/-- Counterexample for C2: weapon 1 has never fired and its own fire
interval has long elapsed (1001 minus 0 is at least 400), yet after
weapon 0 fires at time 1000 and the selection switches, the attempt
with weapon 1 at time 1001 emits nothing: the cooldown gate is the
shared last-shot timestamp, not a per-weapon one. -/
theorem c2_counterexample :
    fireA.1.projectiles.length = 1 ∧
    afterSwitch.currentWeapon = 1 ∧
    (activeWeapon afterSwitch).fireRate ≤ (1001 : ℚ) - 0 ∧
    (activeWeapon afterSwitch).ammoCost ≤ afterSwitch.ammo ∧
    fireB.1.projectiles = fireA.1.projectiles := by
  have h1 : (activeWeapon startState).fireRate ≤ (1000 : ℚ) - 0 := by
    norm_num [activeWeapon, startState, initialWeapons]
  have h2 : (activeWeapon startState).ammoCost ≤ startState.ammo := by
    norm_num [activeWeapon, startState, initialWeapons]
  have hA := shoot_success cMath cSrc 1000 startState 0 0 h1 h2
  have hwA : activeWeapon afterSwitch = initialWeapons.getD 1 defaultWeapon := by
    simp only [afterSwitch, activeWeapon, switchWeapon]
    simp only [fireA, hA]
    rfl
  have hammo : afterSwitch.ammo =
      min (startState.ammo - (activeWeapon startState).ammoCost)
        (startState.weapons.getD 1 defaultWeapon).ammoMax := by
    simp only [afterSwitch, switchWeapon]
    simp only [fireA, hA]
  have hfail := shoot_fail cMath cSrc 1001 afterSwitch fireA.2.1 fireA.2.2
    (Or.inl (by
      have hls : fireA.2.1 = 1000 := by simp only [fireA, hA]
      rw [hls, hwA]
      norm_num [initialWeapons]))
  refine ⟨?_, rfl, ?_, ?_, ?_⟩
  · have hp : fireA.1.projectiles =
        startState.projectiles ++ [shotProj cMath cSrc startState 0] := by
      simp only [fireA, hA]
    rw [hp]
    rfl
  · rw [hwA]; norm_num [initialWeapons]
  · rw [hwA, hammo]
    norm_num [startState, activeWeapon, initialWeapons, defaultWeapon, min_def]
  · simp only [fireB]
    rw [hfail]
    rfl

/-- Claim C2 (amended): the fire cooldown is global, kept in one
shared last-shot timestamp that any successful fire overwrites; after
firing weapon A at time t and switching to weapon B, an attempt with B
at time t2 emits a projectile exactly when t2 minus t reaches the fire
interval of B (and the ammo suffices), regardless of when B itself
last fired. -/
theorem c2_amended (m : MathOps) (src src2 : RandSrc) (now now2 ls : ℚ) (s : GameState)
    (k : ℕ) (b : ℕ) (hb : b < s.weapons.length)
    (h1 : (activeWeapon s).fireRate ≤ now - ls)
    (h2 : (activeWeapon s).ammoCost ≤ s.ammo) :
    (shoot m src now s ls k).2.1 = now ∧
    ((shoot m src2 now2 (switchWeapon (shoot m src now s ls k).1 b)
        (shoot m src now s ls k).2.1 (shoot m src now s ls k).2.2).1.projectiles.length =
      (switchWeapon (shoot m src now s ls k).1 b).projectiles.length + 1 ↔
      (s.weapons.getD b defaultWeapon).fireRate ≤ now2 - now ∧
      (s.weapons.getD b defaultWeapon).ammoCost ≤
        (switchWeapon (shoot m src now s ls k).1 b).ammo) := by
  have hfst := shoot_success m src now s ls k h1 h2
  have hls : (shoot m src now s ls k).2.1 = now := by rw [hfst]
  have hwb : activeWeapon (switchWeapon (shoot m src now s ls k).1 b) =
      s.weapons.getD b defaultWeapon := by
    unfold activeWeapon switchWeapon
    simp only [(shoot_frame m src now s ls k).2.1]
  refine ⟨hls, ?_⟩
  by_cases hc : (s.weapons.getD b defaultWeapon).fireRate ≤ now2 - now ∧
      (s.weapons.getD b defaultWeapon).ammoCost ≤
        (switchWeapon (shoot m src now s ls k).1 b).ammo
  · have hsucc := shoot_success m src2 now2 (switchWeapon (shoot m src now s ls k).1 b)
      (shoot m src now s ls k).2.1 (shoot m src now s ls k).2.2
      (by rw [hwb, hls]; exact hc.1) (by rw [hwb]; exact hc.2)
    constructor
    · intro _
      exact hc
    · intro _
      rw [hsucc]
      simp
  · have hneg : now2 - (shoot m src now s ls k).2.1 <
        (activeWeapon (switchWeapon (shoot m src now s ls k).1 b)).fireRate ∨
        (switchWeapon (shoot m src now s ls k).1 b).ammo <
        (activeWeapon (switchWeapon (shoot m src now s ls k).1 b)).ammoCost := by
      rw [hwb, hls]
      rcases not_and_or.mp hc with h | h
      · exact Or.inl (not_le.mp h)
      · exact Or.inr (not_le.mp h)
    have hfail := shoot_fail m src2 now2 (switchWeapon (shoot m src now s ls k).1 b)
      (shoot m src now s ls k).2.1 (shoot m src now s ls k).2.2 hneg
    constructor
    · intro hlen
      rw [hfail] at hlen
      exact absurd hlen (Nat.succ_ne_self _).symm
    · intro hcc
      exact absurd hcc hc

/-- Witness for the amended C2: firing weapon 0 at time 1000, switching
to weapon 1, and attempting at time 1500 (past the 400 interval of
weapon 1 counted from the shared timestamp) emits a projectile. -/
theorem c2_amended_witness :
    (shoot cMath cSrc 1000 startState 0 0).2.1 = 1000 ∧
    (shoot cMath cSrc 1500 (switchWeapon (shoot cMath cSrc 1000 startState 0 0).1 1)
      (shoot cMath cSrc 1000 startState 0 0).2.1
      (shoot cMath cSrc 1000 startState 0 0).2.2).1.projectiles.length =
      (switchWeapon (shoot cMath cSrc 1000 startState 0 0).1 1).projectiles.length + 1 := by
  have h1 : (activeWeapon startState).fireRate ≤ (1000 : ℚ) - 0 := by
    norm_num [activeWeapon, startState, initialWeapons]
  have h2 : (activeWeapon startState).ammoCost ≤ startState.ammo := by
    norm_num [activeWeapon, startState, initialWeapons]
  have h := c2_amended cMath cSrc cSrc 1000 1500 0 startState 0 1 (by decide) h1 h2
  refine ⟨h.1, h.2.mpr ⟨?_, ?_⟩⟩
  · norm_num [startState, initialWeapons]
  · have hA := shoot_success cMath cSrc 1000 startState 0 0 h1 h2
    simp only [switchWeapon]
    simp only [hA]
    norm_num [startState, activeWeapon, initialWeapons, defaultWeapon, min_def]

/-! Claim C5: wave spawning. -/

/-- Each enemy of the spawn loop is a drone or a tank, is a tank only
past wave 3, and carries the wave-scaled health. -/
theorem mkWaveEnemy_spec (src : RandSrc) (wave k : ℕ) :
    (mkWaveEnemy src wave k).1.type ≠ EType.boss ∧
    ((mkWaveEnemy src wave k).1.type = EType.tank → 3 < wave) ∧
    (mkWaveEnemy src wave k).1.health =
      (30 + (wave : ℚ) * 10) * (if (mkWaveEnemy src wave k).1.type = EType.tank then 3 else 1) ∧
    (mkWaveEnemy src wave k).1.maxHealth = (mkWaveEnemy src wave k).1.health := by
  unfold mkWaveEnemy
  by_cases hw : 3 < wave
  · by_cases hr : src (k+2) < (5 : ℚ)⁻¹
    · simp [hw, hr]
    · simp [hw, hr]
  · simp [hw]

/-- The spawn loop produces exactly the requested number of enemies,
all drones or tanks with the wave-scaled health. -/
theorem spawnWaveAux_spec (src : RandSrc) (wave : ℕ) : ∀ (n k : ℕ),
    (spawnWaveAux src wave n k).1.length = n ∧
    ∀ e ∈ (spawnWaveAux src wave n k).1,
      e.type ≠ EType.boss ∧ (e.type = EType.tank → 3 < wave) ∧
      e.health = (30 + (wave : ℚ) * 10) * (if e.type = EType.tank then 3 else 1) ∧
      e.maxHealth = e.health := by
  intro n
  induction n with
  | zero => intro k; simp [spawnWaveAux]
  | succ n ih =>
    intro k
    simp only [spawnWaveAux, List.length_cons, List.mem_cons]
    constructor
    · rw [(ih _).1]
    · rintro e (rfl | he)
      · exact mkWaveEnemy_spec src wave k
      · exact (ih _).2 e he

/-- Claim C5: spawnWave(n) appends 3 + 2n non-boss enemies whose
health and maxHealth equal (30 + 10n) times 3 for a tank and times 1
for a drone, tanks occurring only past wave 3, plus exactly one boss
with health 200 + 50n, zero cooldown, at the top-center entry point,
exactly when n is a multiple of 5. -/
theorem c5_spawnWave (src : RandSrc) (wave k : ℕ) :
    (spawnWave src wave k).1.length = 3 + 2 * wave + (if wave % 5 = 0 then 1 else 0) ∧
    (∀ e ∈ (spawnWave src wave k).1, e.type ≠ EType.boss →
      e.health = (30 + (wave : ℚ) * 10) * (if e.type = EType.tank then 3 else 1) ∧
      e.maxHealth = e.health) ∧
    (∀ e ∈ (spawnWave src wave k).1, e.type = EType.tank → 3 < wave) ∧
    (bossEnemy wave).health = 200 + (wave : ℚ) * 50 ∧
    (bossEnemy wave).maxHealth = (bossEnemy wave).health ∧
    (bossEnemy wave).shootCooldown = 0 ∧
    (bossEnemy wave).x = CANVAS_WIDTH / 2 ∧
    (bossEnemy wave).y = -100 ∧
    (wave % 5 = 0 →
      ∃ rest, (spawnWave src wave k).1 = rest ++ [bossEnemy wave] ∧
        ∀ e ∈ rest, e.type ≠ EType.boss) ∧
    (wave % 5 ≠ 0 → ∀ e ∈ (spawnWave src wave k).1, e.type ≠ EType.boss) := by
  have haux := spawnWaveAux_spec src wave (3 + wave * 2) k
  unfold spawnWave
  by_cases h5 : wave % 5 = 0
  · simp only [if_pos h5]
    refine ⟨?_, ?_, ?_, rfl, rfl, rfl, rfl, rfl, ?_, ?_⟩
    · simp only [List.length_append, List.length_singleton, haux.1]
      ring
    · intro e he hb
      rcases List.mem_append.mp he with he | he
      · exact ⟨(haux.2 e he).2.2.1, (haux.2 e he).2.2.2⟩
      · rcases List.mem_singleton.mp he with rfl
        exact absurd rfl hb
    · intro e he
      rcases List.mem_append.mp he with he | he
      · exact (haux.2 e he).2.1
      · rcases List.mem_singleton.mp he with rfl
        exact fun ht => nomatch ht
    · intro _
      exact ⟨(spawnWaveAux src wave (3 + wave * 2) k).1, rfl,
        fun e he => (haux.2 e he).1⟩
    · intro hne
      exact absurd h5 hne
  · simp only [if_neg h5]
    refine ⟨?_, ?_, ?_, rfl, rfl, rfl, rfl, rfl, ?_, ?_⟩
    · rw [haux.1]; ring
    · intro e he _
      exact ⟨(haux.2 e he).2.2.1, (haux.2 e he).2.2.2⟩
    · intro e he
      exact (haux.2 e he).2.1
    · intro h
      exact absurd h h5
    · intro _ e he
      exact (haux.2 e he).1

/-- Witness for C5: wave 5 spawns 13 smalls plus the boss, wave 2
spawns exactly 7 enemies and no boss. -/
theorem c5_spawnWave_witness :
    (spawnWave cSrc 5 0).1.length = 3 + 2 * 5 + 1 ∧
    (spawnWave cSrc 2 0).1.length = 3 + 2 * 2 ∧
    (∃ rest, (spawnWave cSrc 5 0).1 = rest ++ [bossEnemy 5] ∧
      ∀ e ∈ rest, e.type ≠ EType.boss) ∧
    (∀ e ∈ (spawnWave cSrc 2 0).1, e.type ≠ EType.boss) := by
  have h5 := c5_spawnWave cSrc 5 0
  have h2 := c5_spawnWave cSrc 2 0
  refine ⟨?_, ?_, h5.2.2.2.2.2.2.2.2.1 (by decide), h2.2.2.2.2.2.2.2.2.2 (by decide)⟩
  · rw [h5.1]; decide
  · rw [h2.1]; decide

/-! Claim C6: collision resolution for player projectiles. -/

/-- spawnBolts produces exactly the requested number of pickups. -/
theorem spawnBolts_length (m : MathOps) (src : RandSrc) (x y : ℚ) :
    ∀ (n k : ℕ), (spawnBolts m src x y n k).1.length = n := by
  intro n
  induction n with
  | zero => intro k; rfl
  | succ n ih =>
    intro k
    simp only [spawnBolts, List.length_cons, ih]

/-- When no enemy overlaps, the reverse scan reports no hit. -/
theorem enemyHit_none (p : Projectile) :
    ∀ es : List Enemy, (∀ e ∈ es, overlapPE p e = false) → enemyHit p es = none := by
  intro es
  induction es with
  | nil => intro _; rfl
  | cons e es ih =>
    intro h
    have hrec : enemyHit p es = none :=
      ih (fun e2 he2 => h e2 (List.mem_cons_of_mem _ he2))
    unfold enemyHit
    rw [hrec]
    simp [h e (List.mem_cons_self _ _)]

/-- The reverse scan damages exactly the overlapping enemy of highest
index; a lethal hit removes it and reports the killed record. -/
theorem enemyHit_found (p : Projectile) (e : Enemy) :
    ∀ (pre post : List Enemy), overlapPE p e = true →
    (∀ e2 ∈ post, overlapPE p e2 = false) →
    enemyHit p (pre ++ e :: post) =
      if e.health - p.damage ≤ 0 then
        some (pre ++ post, some { e with health := e.health - p.damage })
      else some (pre ++ { e with health := e.health - p.damage } :: post, none) := by
  intro pre
  induction pre with
  | nil =>
    intro post ho hpost
    simp only [List.nil_append]
    unfold enemyHit
    rw [enemyHit_none p post hpost]
    by_cases hd : e.health - p.damage ≤ 0
    · rw [if_pos hd]
      simp [ho, hd]
    · rw [if_neg hd]
      simp [ho, hd]
  | cons a pre ih =>
    intro post ho hpost
    simp only [List.cons_append]
    unfold enemyHit
    rw [ih post ho hpost]
    by_cases hd : e.health - p.damage ≤ 0
    · rw [if_pos hd, if_pos hd]
    · rw [if_neg hd, if_neg hd]

/-- Claim C6: a player projectile damages at most one enemy, the
overlapping one of highest index, and is consumed by its first hit;
a lethal hit removes the enemy in the same pass and exactly once adds
the variant score (boss 500, tank 100, drone 50) and spawns the
variant drop count of pickups (boss 20, tank 8, drone 3); a
non-lethal hit changes only that one enemy. -/
theorem c6_collision (m : MathOps) (src : RandSrc) (c : CollCtx) (p : Projectile)
    (hp : p.isEnemy = false) :
    scoreValue EType.boss = 500 ∧ scoreValue EType.tank = 100 ∧
    scoreValue EType.drone = 50 ∧ boltDrop EType.boss = 20 ∧
    boltDrop EType.tank = 8 ∧ boltDrop EType.drone = 3 ∧
    ((∀ e ∈ c.enemies, overlapPE p e = false) →
      collideOne m src c p = { c with kept := c.kept ++ [p] }) ∧
    (∀ (pre post : List Enemy) (e : Enemy), c.enemies = pre ++ e :: post →
      overlapPE p e = true → (∀ e2 ∈ post, overlapPE p e2 = false) →
      (collideOne m src c p).kept = c.kept ∧
      (collideOne m src c p).player = c.player ∧
      (e.health - p.damage ≤ 0 →
        (collideOne m src c p).enemies = pre ++ post ∧
        (collideOne m src c p).score = c.score + scoreValue e.type ∧
        (collideOne m src c p).boltPickups.length =
          c.boltPickups.length + boltDrop e.type) ∧
      (¬e.health - p.damage ≤ 0 →
        (collideOne m src c p).enemies =
          pre ++ { e with health := e.health - p.damage } :: post ∧
        (collideOne m src c p).score = c.score ∧
        (collideOne m src c p).boltPickups = c.boltPickups)) := by
  refine ⟨rfl, rfl, rfl, rfl, rfl, rfl, ?_, ?_⟩
  · intro h
    unfold collideOne
    rw [hp]
    simp only [Bool.false_eq_true, if_false]
    rw [enemyHit_none p c.enemies h]
  · intro pre post e hsplit ho hpost
    unfold collideOne
    rw [hp]
    simp only [Bool.false_eq_true, if_false]
    rw [hsplit, enemyHit_found p e pre post ho hpost]
    by_cases hd : e.health - p.damage ≤ 0
    · rw [if_pos hd]
      refine ⟨rfl, rfl, fun _ => ⟨rfl, rfl, ?_⟩, fun hc => absurd hd hc⟩
      simp only [List.length_append, spawnBolts_length]
    · rw [if_neg hd]
      exact ⟨rfl, rfl, fun hc => absurd hc hd, fun _ => ⟨rfl, rfl, rfl⟩⟩

/-- Witness for C6: the projectile resting on the nearly dead drone
kills it in one hit, is consumed, removes the drone, awards 50, and
drops 3 pickups. -/
theorem c6_collision_witness :
    (collideOne cMath cSrc killCtx playerShot).kept = killCtx.kept ∧
    (collideOne cMath cSrc killCtx playerShot).enemies = [] ∧
    (collideOne cMath cSrc killCtx playerShot).score = killCtx.score + 50 ∧
    (collideOne cMath cSrc killCtx playerShot).boltPickups.length =
      killCtx.boltPickups.length + 3 := by
  have ho : overlapPE playerShot nearDrone = true := by
    norm_num [overlapPE, playerShot, nearDrone, enemyRadius]
  have h := (c6_collision cMath cSrc killCtx playerShot rfl).2.2.2.2.2.2.2
    [] [] nearDrone rfl ho (by intro e2 he2; cases he2)
  have hd : nearDrone.health - playerShot.damage ≤ 0 := by
    norm_num [nearDrone, playerShot]
  obtain ⟨hkept, _, hkill, _⟩ := h
  obtain ⟨he, hs, hbp⟩ := hkill hd
  exact ⟨hkept, he, hs, hbp⟩

/-! Frame lemmas: which fields each tick stage leaves untouched. -/

theorem moveAngle_health (m : MathOps) (inp : TickInput) (t : TickState) :
    (moveAngleStage m inp t).s.player.health = t.s.player.health := rfl

theorem moveAngle_maxHealth (m : MathOps) (inp : TickInput) (t : TickState) :
    (moveAngleStage m inp t).s.player.maxHealth = t.s.player.maxHealth := rfl

theorem moveAngle_inv (m : MathOps) (inp : TickInput) (t : TickState) :
    (moveAngleStage m inp t).s.player.invincible = t.s.player.invincible := rfl

theorem moveAngle_ammo (m : MathOps) (inp : TickInput) (t : TickState) :
    (moveAngleStage m inp t).s.ammo = t.s.ammo := rfl

theorem moveAngle_weapons (m : MathOps) (inp : TickInput) (t : TickState) :
    (moveAngleStage m inp t).s.weapons = t.s.weapons := rfl

theorem moveAngle_currentWeapon (m : MathOps) (inp : TickInput) (t : TickState) :
    (moveAngleStage m inp t).s.currentWeapon = t.s.currentWeapon := rfl

theorem moveAngle_projectiles (m : MathOps) (inp : TickInput) (t : TickState) :
    (moveAngleStage m inp t).s.projectiles = t.s.projectiles := rfl

theorem moveAngle_wave (m : MathOps) (inp : TickInput) (t : TickState) :
    (moveAngleStage m inp t).s.wave = t.s.wave := rfl

theorem moveAngle_gameOver (m : MathOps) (inp : TickInput) (t : TickState) :
    (moveAngleStage m inp t).s.gameOver = t.s.gameOver := rfl

theorem shootStage_player (m : MathOps) (src : RandSrc) (inp : TickInput) (t : TickState) :
    (shootStage m src inp t).s.player = t.s.player := by
  unfold shootStage
  split
  · exact (shoot_frame m src inp.now t.s t.ls t.k).1
  · rfl

theorem shootStage_weapons (m : MathOps) (src : RandSrc) (inp : TickInput) (t : TickState) :
    (shootStage m src inp t).s.weapons = t.s.weapons := by
  unfold shootStage
  split
  · exact (shoot_frame m src inp.now t.s t.ls t.k).2.1
  · rfl

theorem shootStage_currentWeapon (m : MathOps) (src : RandSrc) (inp : TickInput)
    (t : TickState) : (shootStage m src inp t).s.currentWeapon = t.s.currentWeapon := by
  unfold shootStage
  split
  · exact (shoot_frame m src inp.now t.s t.ls t.k).2.2.1
  · rfl

theorem shootStage_enemies (m : MathOps) (src : RandSrc) (inp : TickInput) (t : TickState) :
    (shootStage m src inp t).s.enemies = t.s.enemies := by
  unfold shootStage
  split
  · exact (shoot_frame m src inp.now t.s t.ls t.k).2.2.2.1
  · rfl

theorem shootStage_wave (m : MathOps) (src : RandSrc) (inp : TickInput) (t : TickState) :
    (shootStage m src inp t).s.wave = t.s.wave := by
  unfold shootStage
  split
  · exact (shoot_frame m src inp.now t.s t.ls t.k).2.2.2.2.2.2.2.1
  · rfl

theorem shootStage_gameOver (m : MathOps) (src : RandSrc) (inp : TickInput) (t : TickState) :
    (shootStage m src inp t).s.gameOver = t.s.gameOver := by
  unfold shootStage
  split
  · exact (shoot_frame m src inp.now t.s t.ls t.k).2.2.2.2.2.2.2.2.2.1
  · rfl

theorem invStage_health (t : TickState) :
    (invStage t).s.player.health = t.s.player.health := rfl

theorem invStage_maxHealth (t : TickState) :
    (invStage t).s.player.maxHealth = t.s.player.maxHealth := rfl

theorem invStage_ammo (t : TickState) : (invStage t).s.ammo = t.s.ammo := rfl

theorem invStage_weapons (t : TickState) : (invStage t).s.weapons = t.s.weapons := rfl

theorem invStage_currentWeapon (t : TickState) :
    (invStage t).s.currentWeapon = t.s.currentWeapon := rfl

theorem invStage_projectiles (t : TickState) :
    (invStage t).s.projectiles = t.s.projectiles := rfl

theorem invStage_enemies (t : TickState) : (invStage t).s.enemies = t.s.enemies := rfl

theorem invStage_wave (t : TickState) : (invStage t).s.wave = t.s.wave := rfl

theorem invStage_gameOver (t : TickState) : (invStage t).s.gameOver = t.s.gameOver := rfl

theorem invStage_inv_pos (t : TickState) (h : 0 < t.s.player.invincible) :
    (invStage t).s.player.invincible = t.s.player.invincible - 1 := by
  unfold invStage
  simp only [if_pos h]

theorem invStage_inv_nonpos (t : TickState) (h : ¬0 < t.s.player.invincible) :
    (invStage t).s.player.invincible = t.s.player.invincible := by
  unfold invStage
  simp only [if_neg h]

theorem projMotion_player (t : TickState) :
    (projMotionStage t).s.player = t.s.player := rfl

theorem projMotion_ammo (t : TickState) : (projMotionStage t).s.ammo = t.s.ammo := rfl

theorem projMotion_weapons (t : TickState) :
    (projMotionStage t).s.weapons = t.s.weapons := rfl

theorem projMotion_currentWeapon (t : TickState) :
    (projMotionStage t).s.currentWeapon = t.s.currentWeapon := rfl

theorem projMotion_enemies (t : TickState) :
    (projMotionStage t).s.enemies = t.s.enemies := rfl

theorem projMotion_wave (t : TickState) : (projMotionStage t).s.wave = t.s.wave := rfl

theorem projMotion_gameOver (t : TickState) :
    (projMotionStage t).s.gameOver = t.s.gameOver := rfl

theorem enemyStage_player (m : MathOps) (t : TickState) :
    (enemyStage m t).s.player = t.s.player := rfl

theorem enemyStage_ammo (m : MathOps) (t : TickState) :
    (enemyStage m t).s.ammo = t.s.ammo := rfl

theorem enemyStage_weapons (m : MathOps) (t : TickState) :
    (enemyStage m t).s.weapons = t.s.weapons := rfl

theorem enemyStage_currentWeapon (m : MathOps) (t : TickState) :
    (enemyStage m t).s.currentWeapon = t.s.currentWeapon := rfl

theorem enemyStage_wave (m : MathOps) (t : TickState) :
    (enemyStage m t).s.wave = t.s.wave := rfl

theorem enemyStage_gameOver (m : MathOps) (t : TickState) :
    (enemyStage m t).s.gameOver = t.s.gameOver := rfl

theorem collideStage_ammo (m : MathOps) (src : RandSrc) (t : TickState) :
    (collideStage m src t).s.ammo = t.s.ammo := rfl

theorem collideStage_weapons (m : MathOps) (src : RandSrc) (t : TickState) :
    (collideStage m src t).s.weapons = t.s.weapons := rfl

theorem collideStage_currentWeapon (m : MathOps) (src : RandSrc) (t : TickState) :
    (collideStage m src t).s.currentWeapon = t.s.currentWeapon := rfl

theorem collideStage_wave (m : MathOps) (src : RandSrc) (t : TickState) :
    (collideStage m src t).s.wave = t.s.wave := rfl

theorem boltStage_player (m : MathOps) (src : RandSrc) (t : TickState) :
    (boltStage m src t).s.player = t.s.player := rfl

theorem boltStage_ammo (m : MathOps) (src : RandSrc) (t : TickState) :
    (boltStage m src t).s.ammo = t.s.ammo := rfl

theorem boltStage_weapons (m : MathOps) (src : RandSrc) (t : TickState) :
    (boltStage m src t).s.weapons = t.s.weapons := rfl

theorem boltStage_currentWeapon (m : MathOps) (src : RandSrc) (t : TickState) :
    (boltStage m src t).s.currentWeapon = t.s.currentWeapon := rfl

theorem boltStage_enemies (m : MathOps) (src : RandSrc) (t : TickState) :
    (boltStage m src t).s.enemies = t.s.enemies := rfl

theorem boltStage_projectiles (m : MathOps) (src : RandSrc) (t : TickState) :
    (boltStage m src t).s.projectiles = t.s.projectiles := rfl

theorem boltStage_wave (m : MathOps) (src : RandSrc) (t : TickState) :
    (boltStage m src t).s.wave = t.s.wave := rfl

theorem boltStage_gameOver (m : MathOps) (src : RandSrc) (t : TickState) :
    (boltStage m src t).s.gameOver = t.s.gameOver := rfl

theorem ammoStage_player (t : TickState) : (ammoStage t).s.player = t.s.player := rfl

theorem ammoStage_weapons (t : TickState) : (ammoStage t).s.weapons = t.s.weapons := rfl

theorem ammoStage_currentWeapon (t : TickState) :
    (ammoStage t).s.currentWeapon = t.s.currentWeapon := rfl

theorem ammoStage_enemies (t : TickState) : (ammoStage t).s.enemies = t.s.enemies := rfl

theorem ammoStage_projectiles (t : TickState) :
    (ammoStage t).s.projectiles = t.s.projectiles := rfl

theorem ammoStage_wave (t : TickState) : (ammoStage t).s.wave = t.s.wave := rfl

theorem ammoStage_gameOver (t : TickState) : (ammoStage t).s.gameOver = t.s.gameOver := rfl

theorem waveStage_player (src : RandSrc) (t : TickState) :
    (waveStage src t).s.player = t.s.player := by
  unfold waveStage
  split
  · rfl
  · rfl

theorem waveStage_ammo (src : RandSrc) (t : TickState) :
    (waveStage src t).s.ammo = t.s.ammo := by
  unfold waveStage
  split
  · rfl
  · rfl

theorem waveStage_weapons (src : RandSrc) (t : TickState) :
    (waveStage src t).s.weapons = t.s.weapons := by
  unfold waveStage
  split
  · rfl
  · rfl

theorem waveStage_currentWeapon (src : RandSrc) (t : TickState) :
    (waveStage src t).s.currentWeapon = t.s.currentWeapon := by
  unfold waveStage
  split
  · rfl
  · rfl

theorem waveStage_projectiles (src : RandSrc) (t : TickState) :
    (waveStage src t).s.projectiles = t.s.projectiles := by
  unfold waveStage
  split
  · rfl
  · rfl

theorem waveStage_gameOver (src : RandSrc) (t : TickState) :
    (waveStage src t).s.gameOver = t.s.gameOver := by
  unfold waveStage
  split
  · rfl
  · rfl

theorem waveStage_empty (src : RandSrc) (t : TickState) (h : t.s.enemies = []) :
    (waveStage src t).s.wave = t.s.wave + 1 ∧
    (waveStage src t).s.enemies = (spawnWave src (t.s.wave + 1) t.k).1 := by
  unfold waveStage
  rw [if_pos (by rw [h]; rfl)]
  refine ⟨rfl, ?_⟩
  show t.s.enemies ++ (spawnWave src (t.s.wave + 1) t.k).1 = _
  rw [h, List.nil_append]

theorem waveStage_nonempty (src : RandSrc) (t : TickState) (h : t.s.enemies ≠ []) :
    waveStage src t = t := by
  unfold waveStage
  rw [if_neg]
  simp only [List.isEmpty_iff]
  exact h

theorem particleStage_player (t : TickState) :
    (particleStage t).s.player = t.s.player := rfl

theorem particleStage_ammo (t : TickState) : (particleStage t).s.ammo = t.s.ammo := rfl

theorem particleStage_weapons (t : TickState) :
    (particleStage t).s.weapons = t.s.weapons := rfl

theorem particleStage_currentWeapon (t : TickState) :
    (particleStage t).s.currentWeapon = t.s.currentWeapon := rfl

theorem particleStage_enemies (t : TickState) :
    (particleStage t).s.enemies = t.s.enemies := rfl

theorem particleStage_projectiles (t : TickState) :
    (particleStage t).s.projectiles = t.s.projectiles := rfl

theorem particleStage_wave (t : TickState) : (particleStage t).s.wave = t.s.wave := rfl

theorem particleStage_gameOver (t : TickState) :
    (particleStage t).s.gameOver = t.s.gameOver := rfl

theorem particleStage_score (t : TickState) : (particleStage t).s.score = t.s.score := rfl

theorem particleStage_bolts (t : TickState) : (particleStage t).s.bolts = t.s.bolts := rfl

theorem waveStage_score (src : RandSrc) (t : TickState) :
    (waveStage src t).s.score = t.s.score := by
  unfold waveStage
  split
  · rfl
  · rfl

theorem waveStage_bolts (src : RandSrc) (t : TickState) :
    (waveStage src t).s.bolts = t.s.bolts := by
  unfold waveStage
  split
  · rfl
  · rfl

theorem ammoStage_score (t : TickState) : (ammoStage t).s.score = t.s.score := rfl

theorem ammoStage_bolts (t : TickState) : (ammoStage t).s.bolts = t.s.bolts := rfl

theorem boltStage_score (m : MathOps) (src : RandSrc) (t : TickState) :
    (boltStage m src t).s.score = t.s.score := rfl

theorem collideStage_bolts (m : MathOps) (src : RandSrc) (t : TickState) :
    (collideStage m src t).s.bolts = t.s.bolts := rfl

theorem collideStage_paused (m : MathOps) (src : RandSrc) (t : TickState) :
    (collideStage m src t).s.paused = t.s.paused := rfl

/-- The number of enemies a wave spawn pushes. -/
theorem spawnWave_length (src : RandSrc) (wave k : ℕ) :
    (spawnWave src wave k).1.length =
      3 + 2 * wave + (if wave % 5 = 0 then 1 else 0) := by
  unfold spawnWave
  by_cases h5 : wave % 5 = 0
  · simp only [if_pos h5, List.length_append, List.length_singleton,
      (spawnWaveAux_spec src wave (3 + wave * 2) k).1]
    ring
  · simp only [if_neg h5, (spawnWaveAux_spec src wave (3 + wave * 2) k).1]
    ring

/-! Claim C7: the invincibility window. -/

/-- With the invincibility timer positive, one collision step never
touches the player record. -/
theorem collideOne_player_of_inv (m : MathOps) (src : RandSrc) (c : CollCtx)
    (p : Projectile) (h : 0 < c.player.invincible) :
    (collideOne m src c p).player = c.player := by
  unfold collideOne
  by_cases hp : p.isEnemy
  · rw [if_pos hp]
    have hni : decide (c.player.invincible ≤ 0) = false :=
      decide_eq_false (not_le.mpr h)
    simp only [hni, Bool.and_false, Bool.false_eq_true, if_false]
  · rw [if_neg hp]
    cases henemy : enemyHit p c.enemies with
    | none => rfl
    | some r =>
      obtain ⟨es2, killed⟩ := r
      cases killed with
      | none => rfl
      | some e => rfl

/-- With the invincibility timer positive, the whole collision pass
never touches the player record. -/
theorem collidePass_player (m : MathOps) (src : RandSrc) :
    ∀ (ps : List Projectile) (c : CollCtx), 0 < c.player.invincible →
    (ps.foldl (collideOne m src) c).player = c.player := by
  intro ps
  induction ps with
  | nil => intro c _; rfl
  | cons p ps ih =>
    intro c h
    rw [List.foldl_cons]
    have hone := collideOne_player_of_inv m src c p h
    rw [ih _ (by rw [hone]; exact h), hone]

/-- Lifting the pass-level fact to the collision stage. -/
theorem collideStage_player_of_inv (m : MathOps) (src : RandSrc) (t : TickState)
    (h : 0 < t.s.player.invincible) :
    (collideStage m src t).s.player = t.s.player := by
  unfold collideStage
  exact collidePass_player m src t.s.projectiles _ h

/-- A full tick with the timer above one preserves health and lowers
the timer by at most one. -/
theorem tick_player_of_inv (m : MathOps) (src : RandSrc) (inp : TickInput) (t : TickState)
    (h : 1 < t.s.player.invincible) :
    (tick m src inp t).s.player.health = t.s.player.health ∧
    t.s.player.invincible - 1 ≤ (tick m src inp t).s.player.invincible := by
  unfold tick
  split
  · exact ⟨rfl, by linarith⟩
  · unfold preWave
    have hshp := shootStage_player m src inp (moveAngleStage m inp t)
    have hinv1 : (shootStage m src inp (moveAngleStage m inp t)).s.player.invincible =
        t.s.player.invincible := by rw [hshp]; rfl
    have hh1 : (shootStage m src inp (moveAngleStage m inp t)).s.player.health =
        t.s.player.health := by rw [hshp]; rfl
    have hipos : 0 < (shootStage m src inp (moveAngleStage m inp t)).s.player.invincible := by
      rw [hinv1]; linarith
    have hii := invStage_inv_pos (shootStage m src inp (moveAngleStage m inp t)) hipos
    have hcoll := collideStage_player_of_inv m src
      (enemyStage m (projMotionStage (invStage (shootStage m src inp (moveAngleStage m inp t)))))
      (by
        rw [enemyStage_player, projMotion_player, hii, hinv1]
        linarith)
    have hfin :
        (particleStage
          (waveStage src
            (ammoStage
              (boltStage m src
                (collideStage m src
                  (enemyStage m
                    (projMotionStage
                      (invStage (shootStage m src inp (moveAngleStage m inp t)))))))))).s.player =
        (invStage (shootStage m src inp (moveAngleStage m inp t))).s.player := by
      rw [particleStage_player, waveStage_player, ammoStage_player, boltStage_player, hcoll,
        enemyStage_player, projMotion_player]
    rw [hfin]
    constructor
    · rw [invStage_health, hh1]
    · rw [hii, hinv1]

/-- Iterating: while the timer stays ahead of the tick count, health
is untouched. -/
theorem ticks_health (m : MathOps) (env : ℕ → RandSrc × TickInput) :
    ∀ (n : ℕ) (t : TickState), (n : ℚ) < t.s.player.invincible →
    (ticks m env n t).s.player.health = t.s.player.health := by
  intro n
  induction n with
  | zero => intro t _; rfl
  | succ n ih =>
    intro t h
    have h1 : 1 < t.s.player.invincible := by
      have hn : (0 : ℚ) ≤ (n : ℚ) := Nat.cast_nonneg n
      push_cast at h
      linarith
    obtain ⟨hh, hi⟩ := tick_player_of_inv m (env n).1 (env n).2 t h1
    have hnext : ((n : ℚ)) < (tick m (env n).1 (env n).2 t).s.player.invincible := by
      push_cast at h
      linarith
    show (ticks m env n (tick m (env n).1 (env n).2 t)).s.player.health = _
    rw [ih _ hnext, hh]

/-- Claim C7: while the invincibility timer is positive no enemy
projectile reduces health (the whole pass leaves the player intact);
a hit landed at timer zero subtracts the projectile damage, sets the
timer to 60 and consumes the projectile; and for the following 59
ticks (indeed any count the timer stays ahead of) health cannot drop. -/
theorem c7_invincibility :
    (∀ (m : MathOps) (src : RandSrc) (c : CollCtx) (ps : List Projectile),
      0 < c.player.invincible →
      (ps.foldl (collideOne m src) c).player = c.player) ∧
    (∀ (m : MathOps) (src : RandSrc) (c : CollCtx) (p : Projectile),
      p.isEnemy = true → c.player.invincible ≤ 0 →
      (p.x - c.player.x) * (p.x - c.player.x) +
        (p.y - c.player.y) * (p.y - c.player.y) < 900 →
      (collideOne m src c p).player.health = c.player.health - p.damage ∧
      (collideOne m src c p).player.invincible = 60 ∧
      (collideOne m src c p).kept = c.kept) ∧
    (∀ (m : MathOps) (env : ℕ → RandSrc × TickInput) (n : ℕ) (t : TickState),
      (n : ℚ) < t.s.player.invincible →
      (ticks m env n t).s.player.health = t.s.player.health) := by
  refine ⟨fun m src c ps h => collidePass_player m src ps c h, ?_, ticks_health⟩
  intro m src c p hp hinv hdist
  unfold collideOne
  rw [if_pos hp]
  have hcond : (decide ((p.x - c.player.x) * (p.x - c.player.x) +
      (p.y - c.player.y) * (p.y - c.player.y) < 900) &&
      decide (c.player.invincible ≤ 0)) = true := by
    rw [decide_eq_true hdist, decide_eq_true hinv]
    rfl
  rw [if_pos hcond]
  exact ⟨rfl, rfl, rfl⟩

/-- Witness for C7: a shielded pass over one overlapping enemy shot
leaves the player intact; a vulnerable single step takes exactly the
10 damage, opens the 60-tick window, and drops the projectile; and 59
ticks from a fresh window leave health at 100. -/
theorem c7_invincibility_witness :
    ([enemyShot].foldl (collideOne cMath cSrc) invCtx).player = invCtx.player ∧
    (collideOne cMath cSrc hitCtx enemyShot).player.health =
      hitCtx.player.health - enemyShot.damage ∧
    (collideOne cMath cSrc hitCtx enemyShot).player.invincible = 60 ∧
    (collideOne cMath cSrc hitCtx enemyShot).kept = hitCtx.kept ∧
    (ticks cMath (fun _ => (cSrc, idleInput)) 59 ⟨shieldedState, 0, 0⟩).s.player.health =
      shieldedState.player.health := by
  obtain ⟨h1, h2, h3⟩ := c7_invincibility
  have hhit := h2 cMath cSrc hitCtx enemyShot rfl
    (by norm_num [hitCtx, invCtx, basePlayer])
    (by norm_num [hitCtx, invCtx, basePlayer, enemyShot])
  refine ⟨h1 cMath cSrc invCtx [enemyShot] ?_, hhit.1, hhit.2.1, hhit.2.2, ?_⟩
  · norm_num [invCtx, shieldedPlayer, basePlayer]
  · exact h3 cMath (fun _ => (cSrc, idleInput)) 59 ⟨shieldedState, 0, 0⟩
      (by norm_num [shieldedState, c1State, startState, shieldedPlayer, basePlayer])

/-! Claim C9: the simulation gate. -/

/-- A gated tick (not started, paused, or game over) is the identity. -/
theorem tick_gated (m : MathOps) (src : RandSrc) (inp : TickInput) (t : TickState)
    (h : t.s.started = false ∨ t.s.paused = true ∨ t.s.gameOver = true) :
    tick m src inp t = t := by
  unfold tick
  rw [if_pos]
  rcases h with h | h | h <;> simp [h]

/-- Claim C9: while not started, or paused, or game over, a tick
leaves the entire state, the last-shot timestamp, and the oracle
position unchanged; and once game over is set, any number of further
ticks is the identity. -/
theorem c9_gate :
    (∀ (m : MathOps) (src : RandSrc) (inp : TickInput) (t : TickState),
      t.s.started = false ∨ t.s.paused = true ∨ t.s.gameOver = true →
      tick m src inp t = t) ∧
    (∀ (m : MathOps) (env : ℕ → RandSrc × TickInput) (n : ℕ) (t : TickState),
      t.s.gameOver = true → ticks m env n t = t) := by
  refine ⟨tick_gated, ?_⟩
  intro m env n
  induction n with
  | zero => intro t _; rfl
  | succ n ih =>
    intro t h
    show ticks m env n (tick m (env n).1 (env n).2 t) = t
    rw [tick_gated m (env n).1 (env n).2 t (Or.inr (Or.inr h)), ih t h]

/-- Witness for C9: a game-over tick, a paused tick, and one hundred
game-over ticks are all the identity. -/
theorem c9_gate_witness :
    tick cMath cSrc idleInput ⟨overState, 0, 0⟩ = ⟨overState, 0, 0⟩ ∧
    tick cMath cSrc idleInput ⟨pausedState, 0, 0⟩ = ⟨pausedState, 0, 0⟩ ∧
    ticks cMath (fun _ => (cSrc, idleInput)) 100 ⟨overState, 0, 0⟩ = ⟨overState, 0, 0⟩ := by
  obtain ⟨h1, h2⟩ := c9_gate
  exact ⟨h1 cMath cSrc idleInput _ (Or.inr (Or.inr rfl)),
    h1 cMath cSrc idleInput _ (Or.inr (Or.inl rfl)),
    h2 cMath (fun _ => (cSrc, idleInput)) 100 _ rfl⟩

/-! Claim C8: wave progression. -/

/-- The wave counter is untouched before the wave-progression step. -/
theorem preWave_wave (m : MathOps) (src : RandSrc) (inp : TickInput) (t : TickState) :
    (preWave m src inp t).s.wave = t.s.wave := by
  unfold preWave
  rw [ammoStage_wave, boltStage_wave, collideStage_wave, enemyStage_wave, projMotion_wave,
    invStage_wave, shootStage_wave, moveAngle_wave]

/-- A running tick is the particle stage after the wave stage after
everything before the wave check. -/
theorem tick_eq_of_running (m : MathOps) (src : RandSrc) (inp : TickInput) (t : TickState)
    (hs : t.s.started = true) (hp : t.s.paused = false) (hg : t.s.gameOver = false) :
    tick m src inp t = particleStage (waveStage src (preWave m src inp t)) := by
  unfold tick
  rw [hs, hp, hg]
  rfl

/-- Claim C8: in a running tick the wave counter increments, and the
new wave spawns, exactly when the enemy collection is empty at the
wave-progression step; when an enemy remains the wave and the enemy
collection pass through unchanged, and a gated tick never changes the
wave either. -/
theorem c8_wave (m : MathOps) (src : RandSrc) (inp : TickInput) (t : TickState)
    (hs : t.s.started = true) (hp : t.s.paused = false) (hg : t.s.gameOver = false) :
    ((preWave m src inp t).s.enemies = [] →
      (tick m src inp t).s.wave = t.s.wave + 1 ∧
      (tick m src inp t).s.enemies =
        (spawnWave src (t.s.wave + 1) (preWave m src inp t).k).1) ∧
    ((preWave m src inp t).s.enemies ≠ [] →
      (tick m src inp t).s.wave = t.s.wave ∧
      (tick m src inp t).s.enemies = (preWave m src inp t).s.enemies) ∧
    (∀ (t2 : TickState), t2.s.started = false ∨ t2.s.paused = true ∨ t2.s.gameOver = true →
      (tick m src inp t2).s.wave = t2.s.wave) := by
  have htick := tick_eq_of_running m src inp t hs hp hg
  refine ⟨?_, ?_, ?_⟩
  · intro he
    have hw := waveStage_empty src (preWave m src inp t) he
    rw [htick, particleStage_wave, particleStage_enemies, hw.1, hw.2, preWave_wave]
    exact ⟨rfl, rfl⟩
  · intro he
    have hw := waveStage_nonempty src (preWave m src inp t) he
    rw [htick, particleStage_wave, particleStage_enemies, hw]
    exact ⟨preWave_wave m src inp t, rfl⟩
  · intro t2 h2
    rw [tick_gated m src inp t2 h2]

/-! Claim C1: health and ammo bounds across a tick. -/

/-- The active weapon inherits the nonnegativity of the weapon table
(an out-of-range index yields the all-zero stand-in). -/
theorem activeWeapon_nonneg (s : GameState)
    (hw : ∀ w ∈ s.weapons, 0 ≤ w.damage ∧ 0 ≤ w.ammoCost ∧ 0 ≤ w.level) :
    0 ≤ (activeWeapon s).damage ∧ 0 ≤ (activeWeapon s).ammoCost ∧
    0 ≤ (activeWeapon s).level := by
  unfold activeWeapon
  by_cases hlt : s.currentWeapon < s.weapons.length
  · rw [List.getD_eq_get _ _ hlt]
    exact hw _ (s.weapons.get_mem _ _)
  · rw [List.getD_eq_default _ _ (le_of_not_lt hlt)]
    norm_num [defaultWeapon]

/-- A fire action preserves the invariant. -/
theorem WF_shoot (m : MathOps) (src : RandSrc) (now : ℚ) (s : GameState) (ls : ℚ) (k : ℕ)
    (h : WF s) : WF (shoot m src now s ls k).1 := by
  by_cases h1 : now - ls < (activeWeapon s).fireRate
  · rw [shoot_fail m src now s ls k (Or.inl h1)]
    exact h
  · by_cases h2 : s.ammo < (activeWeapon s).ammoCost
    · rw [shoot_fail m src now s ls k (Or.inr h2)]
      exact h
    · rw [shoot_success m src now s ls k (not_lt.mp h1) (not_lt.mp h2)]
      obtain ⟨w1, w2, w3, w4, w5, w6⟩ := h
      obtain ⟨hd, hc, hl⟩ := activeWeapon_nonneg s w6
      refine ⟨?_, ?_, w3, w4, ?_, w6⟩
      · show 0 ≤ s.ammo - (activeWeapon s).ammoCost
        have := not_lt.mp h2
        linarith
      · show s.ammo - (activeWeapon s).ammoCost ≤ (activeWeapon s).ammoMax
        linarith
      · intro p hp
        rcases List.mem_append.mp hp with hp | hp
        · exact w5 p hp
        · rcases List.mem_singleton.mp hp with rfl
          show (0 : ℚ) ≤ (activeWeapon s).damage * (activeWeapon s).level
          exact mul_nonneg hd hl

/-- The fire stage preserves the invariant. -/
theorem WF_shootStage (m : MathOps) (src : RandSrc) (inp : TickInput) (t : TickState)
    (h : WF t.s) : WF (shootStage m src inp t).s := by
  unfold shootStage
  split
  · exact WF_shoot m src inp.now t.s t.ls t.k h
  · exact h

/-- Projectile motion and culling preserve the invariant. -/
theorem WF_projMotion (t : TickState) (h : WF t.s) : WF (projMotionStage t).s := by
  obtain ⟨h1, h2, h3, h4, h5, h6⟩ := h
  refine ⟨h1, h2, h3, h4, ?_, h6⟩
  intro p hp
  obtain ⟨hp1, _⟩ := List.mem_filter.mp hp
  obtain ⟨q, hq, rfl⟩ := List.mem_map.mp hp1
  exact h5 q hq

/-- Projectiles fired by one enemy carry damage 15 or 10. -/
theorem updateEnemy_damage (m : MathOps) (pl : Player) (e : Enemy) :
    ∀ q ∈ (updateEnemy m pl e).2, 0 ≤ q.damage := by
  intro q hq
  unfold updateEnemy at hq
  by_cases hcd : e.shootCooldown - 1 ≤ 0
  · rw [if_pos hcd] at hq
    by_cases hb : e.type = EType.boss
    · simp only [hb, if_pos] at hq
      obtain ⟨i, _, rfl⟩ := List.mem_map.mp hq
      norm_num
    · rw [if_neg hb] at hq
      rcases List.mem_singleton.mp hq with rfl
      by_cases ht : e.type = EType.tank
      · simp only [ht, if_pos]
        norm_num
      · simp only [ht, if_neg, if_false]
        norm_num
  · rw [if_neg hcd] at hq
    cases hq

/-- Projectiles pushed by the enemy pass carry nonnegative damage. -/
theorem updateEnemies_damage (m : MathOps) (pl : Player) :
    ∀ es : List Enemy, ∀ q ∈ (updateEnemies m pl es).2, 0 ≤ q.damage := by
  intro es
  induction es with
  | nil => intro q hq; cases hq
  | cons e es ih =>
    intro q hq
    unfold updateEnemies at hq
    rcases List.mem_append.mp hq with hq | hq
    · exact updateEnemy_damage m pl e q hq
    · exact ih q hq

/-- The enemy stage preserves the invariant. -/
theorem WF_enemyStage (m : MathOps) (t : TickState) (h : WF t.s) : WF (enemyStage m t).s := by
  obtain ⟨h1, h2, h3, h4, h5, h6⟩ := h
  refine ⟨h1, h2, h3, h4, ?_, h6⟩
  intro p hp
  rcases List.mem_append.mp hp with hp | hp
  · exact h5 p hp
  · exact updateEnemies_damage m t.s.player t.s.enemies p hp

/-- Folding an invariant through the collision pass. -/
theorem foldl_collide_inv (m : MathOps) (src : RandSrc) (P : CollCtx → Prop)
    (step : ∀ (c : CollCtx) (p : Projectile), 0 ≤ p.damage → P c → P (collideOne m src c p)) :
    ∀ (ps : List Projectile) (c : CollCtx), (∀ p ∈ ps, 0 ≤ p.damage) → P c →
    P (ps.foldl (collideOne m src) c) := by
  intro ps
  induction ps with
  | nil => intro c _ hc; exact hc
  | cons p ps ih =>
    intro c hd hc
    rw [List.foldl_cons]
    exact ih _ (fun q hq => hd q (List.mem_cons_of_mem _ hq))
      (step c p (hd p (List.mem_cons_self _ _)) hc)

/-- One collision step keeps health below maxHealth, reports negative
health as game over, and keeps the surviving damages nonnegative. -/
theorem collideOne_bound (m : MathOps) (src : RandSrc) (M : ℚ) (c : CollCtx)
    (p : Projectile) (hd : 0 ≤ p.damage)
    (h : c.player.maxHealth = M ∧ c.player.health ≤ M ∧
      (c.player.health < 0 → c.gameOver = true) ∧ ∀ q ∈ c.kept, 0 ≤ q.damage) :
    (collideOne m src c p).player.maxHealth = M ∧
    (collideOne m src c p).player.health ≤ M ∧
    ((collideOne m src c p).player.health < 0 → (collideOne m src c p).gameOver = true) ∧
    ∀ q ∈ (collideOne m src c p).kept, 0 ≤ q.damage := by
  obtain ⟨h1, h2, h3, h4⟩ := h
  have hkeep : ∀ q ∈ c.kept ++ [p], 0 ≤ q.damage := by
    intro q hq
    rcases List.mem_append.mp hq with hq | hq
    · exact h4 q hq
    · rcases List.mem_singleton.mp hq with rfl
      exact hd
  unfold collideOne
  by_cases hp : p.isEnemy
  · rw [if_pos hp]
    by_cases hcond : (decide ((p.x - c.player.x) * (p.x - c.player.x) +
        (p.y - c.player.y) * (p.y - c.player.y) < 900) &&
        decide (c.player.invincible ≤ 0)) = true
    · rw [if_pos hcond]
      refine ⟨h1, by dsimp only; linarith, ?_, h4⟩
      intro hneg
      show (if c.player.health - p.damage ≤ 0 then true else c.gameOver) = true
      exact if_pos (le_of_lt hneg)
    · rw [if_neg hcond]
      exact ⟨h1, h2, h3, hkeep⟩
  · rw [if_neg hp]
    cases henemy : enemyHit p c.enemies with
    | none => exact ⟨h1, h2, h3, hkeep⟩
    | some r =>
      obtain ⟨es2, killed⟩ := r
      cases killed with
      | none => exact ⟨h1, h2, h3, h4⟩
      | some e => exact ⟨h1, h2, h3, h4⟩

/-- The collision stage preserves the invariant. -/
theorem WF_collideStage (m : MathOps) (src : RandSrc) (t : TickState) (h : WF t.s) :
    WF (collideStage m src t).s := by
  obtain ⟨h1, h2, h3, h4, h5, h6⟩ := h
  have hfold := foldl_collide_inv m src
    (fun c => c.player.maxHealth = t.s.player.maxHealth ∧
      c.player.health ≤ t.s.player.maxHealth ∧
      (c.player.health < 0 → c.gameOver = true) ∧ ∀ q ∈ c.kept, 0 ≤ q.damage)
    (fun c p hd hc => collideOne_bound m src t.s.player.maxHealth c p hd hc)
    t.s.projectiles
    { enemies := t.s.enemies, player := t.s.player, score := t.s.score,
      boltPickups := t.s.boltPickups, particles := t.s.particles,
      gameOver := t.s.gameOver, kept := [], k := t.k }
    h5 ⟨rfl, h3, h4, fun q hq => absurd hq (List.not_mem_nil q)⟩
  obtain ⟨f1, f2, f3, f4⟩ := hfold
  refine ⟨h1, h2, ?_, ?_, ?_, h6⟩
  · show (collideStage m src t).s.player.health ≤ (collideStage m src t).s.player.maxHealth
    have hmx : (collideStage m src t).s.player.maxHealth = t.s.player.maxHealth := f1
    rw [hmx]
    exact f2
  · exact f3
  · exact f4

/-- Ammo regeneration preserves the invariant. -/
theorem WF_ammoStage (t : TickState) (h : WF t.s) : WF (ammoStage t).s := by
  obtain ⟨h1, h2, h3, h4, h5, h6⟩ := h
  have hmx : (0 : ℚ) ≤ (activeWeapon t.s).ammoMax := le_trans h1 h2
  refine ⟨?_, ?_, h3, h4, h5, h6⟩
  · show (0 : ℚ) ≤ (ammoStage t).s.ammo
    unfold ammoStage
    dsimp only
    split
    · exact le_min hmx (by linarith)
    · exact h1
  · show (ammoStage t).s.ammo ≤ (activeWeapon t.s).ammoMax
    unfold ammoStage
    dsimp only
    split
    · exact min_le_left _ _
    · exact h2

/-- The remaining stages leave every component of the invariant
untouched. -/
theorem WF_congr (s2 s : GameState)
    (hw : s2.weapons = s.weapons) (hc : s2.currentWeapon = s.currentWeapon)
    (ha : s2.ammo = s.ammo) (hh : s2.player.health = s.player.health)
    (hm : s2.player.maxHealth = s.player.maxHealth) (hg : s2.gameOver = s.gameOver)
    (hp : s2.projectiles = s.projectiles) (h : WF s) : WF s2 := by
  obtain ⟨h1, h2, h3, h4, h5, h6⟩ := h
  have hact : activeWeapon s2 = activeWeapon s := by
    unfold activeWeapon
    rw [hw, hc]
  exact ⟨ha ▸ h1, by rw [ha, hact]; exact h2, by rw [hh, hm]; exact h3,
    by rw [hh, hg]; exact h4, by rw [hp]; exact h5, by rw [hw]; exact h6⟩

/-- Claim C1 (amended): a completed tick keeps ammo within
[0, activeWeapon.ammoMax] and health at most maxHealth; health is not
clamped at zero, but a negative health value can only ever be stored
together with the game-over flag, which the killing hit sets in the
same tick. -/
theorem c1_invariant (m : MathOps) (src : RandSrc) (inp : TickInput) (t : TickState)
    (h : WF t.s) : WF (tick m src inp t).s := by
  unfold tick
  split
  · exact h
  · unfold preWave
    have s1 := WF_congr (moveAngleStage m inp t).s t.s rfl rfl rfl rfl rfl rfl rfl h
    have s2 := WF_shootStage m src inp (moveAngleStage m inp t) s1
    have s3 := WF_congr (invStage (shootStage m src inp (moveAngleStage m inp t))).s
      (shootStage m src inp (moveAngleStage m inp t)).s rfl rfl rfl rfl rfl rfl rfl s2
    have s4 := WF_projMotion (invStage (shootStage m src inp (moveAngleStage m inp t))) s3
    have s5 := WF_enemyStage m
      (projMotionStage (invStage (shootStage m src inp (moveAngleStage m inp t)))) s4
    have s6 := WF_collideStage m src
      (enemyStage m (projMotionStage (invStage (shootStage m src inp
        (moveAngleStage m inp t))))) s5
    set u := collideStage m src (enemyStage m (projMotionStage (invStage (shootStage m src inp
      (moveAngleStage m inp t))))) with hu
    have s7 := WF_congr (boltStage m src u).s u.s rfl rfl rfl rfl rfl rfl rfl s6
    have s8 := WF_ammoStage (boltStage m src u) s7
    have s9 := WF_congr (waveStage src (ammoStage (boltStage m src u))).s
      (ammoStage (boltStage m src u)).s
      (waveStage_weapons src _) (waveStage_currentWeapon src _) (waveStage_ammo src _)
      (by rw [waveStage_player]) (by rw [waveStage_player]) (waveStage_gameOver src _)
      (waveStage_projectiles src _) s8
    exact WF_congr (particleStage (waveStage src (ammoStage (boltStage m src u)))).s
      (waveStage src (ammoStage (boltStage m src u))).s rfl rfl rfl rfl rfl rfl rfl s9

/-- In the C1 run, the state reaching the collision stage is the
original one with the drone cooled down by one step. -/
theorem c1_mid :
    enemyStage cMath (projMotionStage (invStage (shootStage cMath cSrc idleInput
      (moveAngleStage cMath idleInput ⟨c1State, 0, 0⟩)))) = ⟨c1Mid, 0, 0⟩ := by
  norm_num [enemyStage, projMotionStage, invStage, shootStage, moveAngleStage, updateEnemies,
    updateEnemy, projInBounds, moveSpeed, enemyFireRate, c1State, c1Mid, chilledFar, farEnemy,
    enemyShot, lowPlayer, basePlayer, startState, idleInput, cMath, cSrc, CANVAS_WIDTH,
    CANVAS_HEIGHT, min_def, max_def]

/-- Counterexample for C1: from 5 health, the enemy hit in this tick
stores health minus five - the completed tick persists a negative
health value (while setting game over), so health does not stay in
[0, maxHealth] and is not clamped at zero. -/
theorem c1_counterexample :
    c1State.player.health = 5 ∧ c1State.player.maxHealth = 100 ∧
    (tick cMath cSrc idleInput ⟨c1State, 0, 0⟩).s.player.health = -5 ∧
    (tick cMath cSrc idleInput ⟨c1State, 0, 0⟩).s.gameOver = true := by
  have htick := tick_eq_of_running cMath cSrc idleInput ⟨c1State, 0, 0⟩ rfl rfl rfl
  have hpl : (tick cMath cSrc idleInput ⟨c1State, 0, 0⟩).s.player =
      (collideStage cMath cSrc ⟨c1Mid, 0, 0⟩).s.player := by
    rw [htick]
    unfold preWave
    rw [c1_mid, particleStage_player, waveStage_player, ammoStage_player, boltStage_player]
  have hgo : (tick cMath cSrc idleInput ⟨c1State, 0, 0⟩).s.gameOver =
      (collideStage cMath cSrc ⟨c1Mid, 0, 0⟩).s.gameOver := by
    rw [htick]
    unfold preWave
    rw [c1_mid, particleStage_gameOver, waveStage_gameOver, ammoStage_gameOver,
      boltStage_gameOver]
  refine ⟨rfl, rfl, ?_, ?_⟩
  · rw [hpl]
    norm_num [collideStage, collideOne, c1Mid, chilledFar, farEnemy, enemyShot, lowPlayer,
      basePlayer, c1State, startState]
  · rw [hgo]
    norm_num [collideStage, collideOne, c1Mid, chilledFar, farEnemy, enemyShot, lowPlayer,
      basePlayer, c1State, startState]

/-- Witness for the amended C1: the started fresh state satisfies the
invariant, and so does the state one tick later. -/
theorem c1_invariant_witness :
    WF startState ∧ WF (tick cMath cSrc idleInput ⟨startState, 0, 0⟩).s := by
  have hwf : WF startState := by
    refine ⟨by norm_num [startState], ?_, by norm_num [startState, basePlayer], ?_, ?_, ?_⟩
    · norm_num [startState, activeWeapon, initialWeapons, basePlayer]
    · intro h
      norm_num [startState, basePlayer] at h
    · intro p hp
      simp only [startState] at hp
      cases hp
    · intro w hw
      fin_cases hw <;> norm_num [initialWeapons]
  exact ⟨hwf, c1_invariant cMath cSrc idleInput ⟨startState, 0, 0⟩ hwf⟩

/-- Witness for C8: with the far drone alive through the whole tick,
the wave stays at 1 and the enemy collection passes through. -/
theorem c8_wave_witness :
    (tick cMath cSrc idleInput ⟨c1State, 0, 0⟩).s.wave = 1 ∧
    (tick cMath cSrc idleInput ⟨c1State, 0, 0⟩).s.enemies =
      (preWave cMath cSrc idleInput ⟨c1State, 0, 0⟩).s.enemies := by
  have hne : (preWave cMath cSrc idleInput ⟨c1State, 0, 0⟩).s.enemies ≠ [] := by
    have he : (preWave cMath cSrc idleInput ⟨c1State, 0, 0⟩).s.enemies =
        (collideStage cMath cSrc ⟨c1Mid, 0, 0⟩).s.enemies := by
      unfold preWave
      rw [c1_mid, ammoStage_enemies, boltStage_enemies]
    rw [he]
    norm_num [collideStage, collideOne, c1Mid, chilledFar, farEnemy, enemyShot, lowPlayer,
      basePlayer, c1State, startState]
  have h := (c8_wave cMath cSrc idleInput ⟨c1State, 0, 0⟩ rfl rfl rfl).2.1 hne
  exact ⟨by rw [h.1]; rfl, h.2⟩

/-! Claim C10: the game-over tick still completes its sub-steps. -/

/-- In the C10 run, the state reaching the collision stage is the
original one with the drone cooled down by one step. -/
theorem c10_mid :
    enemyStage cMath (projMotionStage (invStage (shootStage cMath cSrc idleInput
      (moveAngleStage cMath idleInput ⟨c10State, 0, 0⟩)))) = ⟨c10Mid, 0, 0⟩ := by
  norm_num [enemyStage, projMotionStage, invStage, shootStage, moveAngleStage, updateEnemies,
    updateEnemy, projInBounds, moveSpeed, enemyFireRate, c10State, c10Mid, chilledDrone,
    nearDrone, killerShot, playerShot, groundBolt, frailPlayer, basePlayer, startState,
    idleInput, cMath, cSrc, CANVAS_WIDTH, CANVAS_HEIGHT, min_def, max_def]

/-- The collision stage of the C10 run: the first (enemy) projectile
kills the player, the second (player) projectile still runs and kills
the drone. -/
theorem c10_collide :
    (collideStage cMath cSrc ⟨c10Mid, 0, 0⟩).s.player = deadPlayer ∧
    (collideStage cMath cSrc ⟨c10Mid, 0, 0⟩).s.gameOver = true ∧
    (collideStage cMath cSrc ⟨c10Mid, 0, 0⟩).s.score = 50 ∧
    (collideStage cMath cSrc ⟨c10Mid, 0, 0⟩).s.enemies = [] ∧
    (collideStage cMath cSrc ⟨c10Mid, 0, 0⟩).s.boltPickups =
      [groundBolt, droppedBolt, droppedBolt, droppedBolt] ∧
    (collideStage cMath cSrc ⟨c10Mid, 0, 0⟩).s.projectiles = [] := by
  norm_num [collideStage, collideOne, enemyHit, overlapPE, enemyRadius, scoreValue, boltDrop,
    spawnBolts, mkBolt, c10Mid, chilledDrone, nearDrone, killerShot, playerShot, groundBolt,
    frailPlayer, deadPlayer, basePlayer, c10State, startState, cMath, cSrc, droppedBolt]

/-- The bolt-collection stage of the C10 run collects exactly the one
pickup lying on the player. -/
theorem c10_bolts :
    (boltStage cMath cSrc (collideStage cMath cSrc ⟨c10Mid, 0, 0⟩)).s.bolts = 1 := by
  obtain ⟨hpl, _, _, _, hbp, _⟩ := c10_collide
  unfold boltStage
  rw [hpl, hbp, collideStage_bolts]
  norm_num [collectOne, groundBolt, droppedBolt, deadPlayer, frailPlayer, basePlayer,
    c10Mid, c10State, startState]

/-- Claim C10: in the very tick in which the killing enemy projectile
sets game over, the rest of the tick still runs: the later player
projectile still kills the drone (scoring 50), the pickup in range is
still collected, ammo still regenerates, and the emptied enemy
collection still triggers the next wave spawn; only from the next
tick does the gate freeze the state. -/
theorem c10_gameover_tick :
    (tick cMath cSrc idleInput ⟨c10State, 0, 0⟩).s.gameOver = true ∧
    (tick cMath cSrc idleInput ⟨c10State, 0, 0⟩).s.player.health = -5 ∧
    (tick cMath cSrc idleInput ⟨c10State, 0, 0⟩).s.score = 50 ∧
    (tick cMath cSrc idleInput ⟨c10State, 0, 0⟩).s.bolts = 1 ∧
    (tick cMath cSrc idleInput ⟨c10State, 0, 0⟩).s.ammo = 501/10 ∧
    (tick cMath cSrc idleInput ⟨c10State, 0, 0⟩).s.wave = 2 ∧
    (tick cMath cSrc idleInput ⟨c10State, 0, 0⟩).s.enemies.length = 7 ∧
    tick cMath cSrc idleInput (tick cMath cSrc idleInput ⟨c10State, 0, 0⟩) =
      tick cMath cSrc idleInput ⟨c10State, 0, 0⟩ := by
  obtain ⟨hpl, hgo, hsc, hen, hbp, _⟩ := c10_collide
  have htick := tick_eq_of_running cMath cSrc idleInput ⟨c10State, 0, 0⟩ rfl rfl rfl
  have hpre : preWave cMath cSrc idleInput ⟨c10State, 0, 0⟩ =
      ammoStage (boltStage cMath cSrc (collideStage cMath cSrc ⟨c10Mid, 0, 0⟩)) := by
    unfold preWave
    rw [c10_mid]
  have hEammo : (ammoStage (boltStage cMath cSrc
      (collideStage cMath cSrc ⟨c10Mid, 0, 0⟩))).s.enemies = [] := by
    rw [ammoStage_enemies, boltStage_enemies, hen]
  have hwv := waveStage_empty cSrc
    (ammoStage (boltStage cMath cSrc (collideStage cMath cSrc ⟨c10Mid, 0, 0⟩))) hEammo
  have hWave1 : (ammoStage (boltStage cMath cSrc
      (collideStage cMath cSrc ⟨c10Mid, 0, 0⟩))).s.wave = 1 := by
    rw [ammoStage_wave, boltStage_wave, collideStage_wave]
    rfl
  have hAmmoVal : (ammoStage (boltStage cMath cSrc
      (collideStage cMath cSrc ⟨c10Mid, 0, 0⟩))).s.ammo = 501/10 := by
    have haw : activeWeapon (boltStage cMath cSrc
        (collideStage cMath cSrc ⟨c10Mid, 0, 0⟩)).s = initialWeapons.getD 0 defaultWeapon := by
      unfold activeWeapon
      rw [boltStage_weapons, collideStage_weapons, boltStage_currentWeapon,
        collideStage_currentWeapon]
      rfl
    unfold ammoStage
    dsimp only
    rw [haw, boltStage_ammo, collideStage_ammo]
    norm_num [c10Mid, c10State, startState, initialWeapons, defaultWeapon, min_def]
  have hgov : (tick cMath cSrc idleInput ⟨c10State, 0, 0⟩).s.gameOver = true := by
    rw [htick, hpre, particleStage_gameOver, waveStage_gameOver, ammoStage_gameOver,
      boltStage_gameOver, hgo]
  refine ⟨hgov, ?_, ?_, ?_, ?_, ?_, ?_, ?_⟩
  · rw [htick, hpre, particleStage_player, waveStage_player, ammoStage_player,
      boltStage_player, hpl]
    rfl
  · rw [htick, hpre, particleStage_score, waveStage_score, ammoStage_score,
      boltStage_score, hsc]
  · rw [htick, hpre, particleStage_bolts, waveStage_bolts, ammoStage_bolts, c10_bolts]
  · rw [htick, hpre, particleStage_ammo, waveStage_ammo, hAmmoVal]
  · rw [htick, hpre, particleStage_wave, hwv.1, hWave1]
  · rw [htick, hpre, particleStage_enemies, hwv.2, hWave1, spawnWave_length]
    norm_num
  · exact tick_gated cMath cSrc idleInput _ (Or.inr (Or.inr hgov))

end BoltBlaster
